import Mathlib

/-!
# teleop_twist_joy_comfy: the joystick-to-velocity controller

A shallow embedding of `src/teleop_twist_joy_comfy.cpp`.

* `double` arithmetic is read as exact arithmetic over `ℚ`; a second copy of the
  arithmetic functions, suffixed `_fp`, rounds the result of every operation.
* The node's members are the fields of `TeleopTwistJoyComfy`; every member
  function is a function from the node (and the `Joy` message) to the new node
  and the list of messages it hands to the publisher, oldest first.
* The time stamp of a stamped message and the log lines are not modelled.
-/

namespace teleop_twist_joy_comfy

/-- The `sensor_msgs::msg::Joy` message: `float32[] axes`, `int32[] buttons`. -/
structure Joy where
  axes : List ℚ
  buttons : List Int
  deriving DecidableEq, Repr

/-- The condition `joy->buttons[i]` of the source: the entry is non-zero.
A well-formed message has the entry; an index past the end reads as released. -/
def Joy.button (joy : Joy) (i : Nat) : Bool :=
  joy.buttons.getD i 0 != 0

/-- The value `joy->axes[i]` of the source (an index past the end reads as centred). -/
def Joy.axis (joy : Joy) (i : Nat) : ℚ :=
  joy.axes.getD i 0

/-- Modelled from the spec: the button index `A` of the class declaration (the header
is not among the sources); "map A/B/X/Y to buttons 0–3". -/
def A : Nat := 0

/-- Modelled from the spec: the button index `B` of the class declaration. -/
def B : Nat := 1

/-- Modelled from the spec: the button index `X` of the class declaration. -/
def X : Nat := 2

/-- Modelled from the spec: the button index `Y` of the class declaration. -/
def Y : Nat := 3

/-- A published message: `geometry_msgs::msg::Twist` (`frame_id = none`) or
`geometry_msgs::msg::TwistStamped` (`frame_id = some _`). Only `linear.x` and
`angular.z` are ever written by the node; the other components stay zero. -/
structure TwistMsg where
  frame_id : Option String
  linear_x : ℚ
  angular_z : ℚ
  deriving DecidableEq, Repr

/-- The members of the node `TeleopTwistJoyComfy`: the parameters read by `getParam`
followed by the mutable members.
Modelled from the spec: the types of the members, which the class declaration gives
(the header is not among the sources): speeds and trims are numbers, the mode flag,
the four locks and the three button latches are booleans. -/
structure TeleopTwistJoyComfy where
  linear_x_ : ℚ
  linear_x_max_ : ℚ
  angular_z_ : ℚ
  angular_z_max_ : ℚ
  speed_up_down_linear_x_original_ : ℚ
  speed_up_down_angular_z_original_ : ℚ
  speed_up_down_scale_linear_x_ : ℚ
  speed_up_down_scale_angular_z_ : ℚ
  publish_twist_stamped_ : Bool
  frame_id_ : String
  auto_teleop_mode_ : Bool
  speed_up_down_linear_x_ : ℚ
  speed_up_down_angular_z_ : ℚ
  speed_down_linear_x_lock_ : Bool
  speed_up_linear_x_lock_ : Bool
  speed_down_angular_z_lock_ : Bool
  speed_up_angular_z_lock_ : Bool
  button_b_state_ : Bool
  button_lb_state_ : Bool
  button_rb_state_ : Bool
  deriving DecidableEq, Repr

/-- The node after `getParam` with the default parameter values (lines 23-35).
Modelled from the spec: the initial values of the mutable members, which the class
declaration sets: mode off, trims zero, locks false, latches false. -/
def getParam : TeleopTwistJoyComfy where
  linear_x_ := 1 / 2
  linear_x_max_ := 1
  angular_z_ := 1 / 2
  angular_z_max_ := 1
  speed_up_down_linear_x_original_ := 1 / 10
  speed_up_down_angular_z_original_ := 1 / 10
  speed_up_down_scale_linear_x_ := 1
  speed_up_down_scale_angular_z_ := 1
  publish_twist_stamped_ := true
  frame_id_ := "teleop_twist_joy_comfy"
  auto_teleop_mode_ := false
  speed_up_down_linear_x_ := 0
  speed_up_down_angular_z_ := 0
  speed_down_linear_x_lock_ := false
  speed_up_linear_x_lock_ := false
  speed_down_angular_z_lock_ := false
  speed_up_angular_z_lock_ := false
  button_b_state_ := false
  button_lb_state_ := false
  button_rb_state_ := false

/-- The library function `std::clamp(v, lo, hi)`: `lo` when `v < lo`, `hi` when
`hi < v`, else `v` (defined by the standard for `lo ≤ hi`). -/
def clamp (v lo hi : ℚ) : ℚ :=
  if v < lo then lo else if hi < v then hi else v

/-- `resetAllSpeedUpDownLocks` (lines 164-170). -/
def resetAllSpeedUpDownLocks (s : TeleopTwistJoyComfy) : TeleopTwistJoyComfy :=
  { s with
    speed_down_linear_x_lock_ := false
    speed_up_linear_x_lock_ := false
    speed_down_angular_z_lock_ := false
    speed_up_angular_z_lock_ := false }

/-- `manageSpeedUpDownLocks` (lines 172-193). -/
def manageSpeedUpDownLocks (s : TeleopTwistJoyComfy) : TeleopTwistJoyComfy :=
  { s with
    speed_down_linear_x_lock_ :=
      decide (s.linear_x_ + s.speed_up_down_linear_x_ * s.speed_up_down_scale_linear_x_ < 0)
    speed_up_linear_x_lock_ :=
      decide (s.linear_x_ + s.speed_up_down_linear_x_ * s.speed_up_down_scale_linear_x_
        > s.linear_x_max_)
    speed_down_angular_z_lock_ :=
      decide (s.angular_z_ + s.speed_up_down_angular_z_ * s.speed_up_down_scale_angular_z_ < 0)
    speed_up_angular_z_lock_ :=
      decide (s.angular_z_ + s.speed_up_down_angular_z_ * s.speed_up_down_scale_angular_z_
        > s.angular_z_max_) }

/-- `calcTwist<T>` (lines 110-162), with `T` chosen by `stamped` as its two callers do:
the node after `manageSpeedUpDownLocks` and the message built. -/
def calcTwist (s : TeleopTwistJoyComfy) (joy : Joy) (stamped : Bool) :
    TeleopTwistJoyComfy × TwistMsg :=
  let v : ℚ × ℚ :=
    if s.auto_teleop_mode_ then
      let linear_x :=
        s.linear_x_ + s.speed_up_down_linear_x_ * s.speed_up_down_scale_linear_x_
      let angular_z :=
        (s.angular_z_ + s.speed_up_down_angular_z_ * s.speed_up_down_scale_angular_z_)
          * joy.axis 3
      let linear_x := clamp linear_x 0 s.linear_x_max_
      let angular_z :=
        if joy.axis 3 > 0 then clamp angular_z 0 s.angular_z_max_
        else if joy.axis 3 < 0 then clamp angular_z (-1 * s.angular_z_max_) 0
        else angular_z
      (linear_x, angular_z)
    else
      let linear_x :=
        (s.linear_x_ + s.speed_up_down_linear_x_ * s.speed_up_down_scale_linear_x_)
          * joy.axis 1
      let angular_z :=
        (s.angular_z_ + s.speed_up_down_angular_z_ * s.speed_up_down_scale_angular_z_)
          * joy.axis 0
      let linear_x :=
        if joy.axis 1 > 0 then clamp linear_x 0 s.linear_x_max_
        else if joy.axis 1 < 0 then clamp linear_x (-1 * s.linear_x_max_) 0
        else linear_x
      let angular_z :=
        if joy.axis 0 > 0 then clamp angular_z 0 s.angular_z_max_
        else if joy.axis 0 < 0 then clamp angular_z (-1 * s.angular_z_max_) 0
        else angular_z
      (linear_x, angular_z)
  let s1 := manageSpeedUpDownLocks s
  if !stamped then
    (s1, { frame_id := none, linear_x := v.1, angular_z := v.2 })
  else
    (s1, { frame_id := some s1.frame_id_, linear_x := v.1, angular_z := v.2 })

/-- `publishZeroTwist<T>` (lines 213-225): a value-initialised message, in the stamped
case with the empty frame id. -/
def publishZeroTwist (stamped : Bool) : List TwistMsg :=
  if !stamped then [{ frame_id := none, linear_x := 0, angular_z := 0 }]
  else [{ frame_id := some "", linear_x := 0, angular_z := 0 }]

/-- `stopVelocity` (lines 273-279). -/
def stopVelocity (s : TeleopTwistJoyComfy) : List TwistMsg :=
  if !s.publish_twist_stamped_ then publishZeroTwist false else publishZeroTwist true

/-- `publishTwist<T>` (lines 203-211): the message goes to the publisher. -/
def publishTwist (twist : TwistMsg) : List TwistMsg := [twist]

/-- `autoTeleopStart` (lines 84-89). -/
def autoTeleopStart (s : TeleopTwistJoyComfy) : TeleopTwistJoyComfy × List TwistMsg :=
  ({ s with auto_teleop_mode_ := true }, [])

/-- `autoTeleopEnd` (lines 91-100). -/
def autoTeleopEnd (s : TeleopTwistJoyComfy) : TeleopTwistJoyComfy × List TwistMsg :=
  let s1 := { s with auto_teleop_mode_ := false }
  let out := stopVelocity s1
  (resetAllSpeedUpDownLocks s1, out)

/-- `autoTeleop` (lines 102-108). -/
def autoTeleop (s : TeleopTwistJoyComfy) (joy : Joy) : TeleopTwistJoyComfy × List TwistMsg :=
  if !s.publish_twist_stamped_ then
    ((calcTwist s joy false).1, publishTwist (calcTwist s joy false).2)
  else
    ((calcTwist s joy true).1, publishTwist (calcTwist s joy true).2)

/-- `manualTeleop` (lines 227-233). -/
def manualTeleop (s : TeleopTwistJoyComfy) (joy : Joy) : TeleopTwistJoyComfy × List TwistMsg :=
  if !s.publish_twist_stamped_ then
    ((calcTwist s joy false).1, publishTwist (calcTwist s joy false).2)
  else
    ((calcTwist s joy true).1, publishTwist (calcTwist s joy true).2)

/-- `changeLinearVelocity` (lines 235-252). -/
def changeLinearVelocity (s : TeleopTwistJoyComfy) (joy : Joy) : TeleopTwistJoyComfy :=
  let s1 :=
    if !s.speed_down_linear_x_lock_ then
      if joy.button 4 && !s.button_lb_state_ then
        { s with speed_up_down_linear_x_ :=
            s.speed_up_down_linear_x_ - s.speed_up_down_linear_x_original_ }
      else s
    else s
  if !s1.speed_up_linear_x_lock_ then
    if joy.button 5 && !s1.button_rb_state_ then
      { s1 with speed_up_down_linear_x_ :=
          s1.speed_up_down_linear_x_ + s1.speed_up_down_linear_x_original_ }
    else s1
  else s1

/-- `changeAngularVelocity` (lines 254-271). -/
def changeAngularVelocity (s : TeleopTwistJoyComfy) (joy : Joy) : TeleopTwistJoyComfy :=
  let s1 :=
    if !s.speed_down_angular_z_lock_ then
      if joy.button 4 && !s.button_lb_state_ then
        { s with speed_up_down_angular_z_ :=
            s.speed_up_down_angular_z_ - s.speed_up_down_angular_z_original_ }
      else s
    else s
  if !s1.speed_up_angular_z_lock_ then
    if joy.button 5 && !s1.button_rb_state_ then
      { s1 with speed_up_down_angular_z_ :=
          s1.speed_up_down_angular_z_ + s1.speed_up_down_angular_z_original_ }
    else s1
  else s1

/-- `manageButtonsState` (lines 195-201). -/
def manageButtonsState (s : TeleopTwistJoyComfy) (joy : Joy) : TeleopTwistJoyComfy :=
  { s with
    button_b_state_ := joy.button B
    button_lb_state_ := joy.button 4
    button_rb_state_ := joy.button 5 }

/-- Lines 55-63 of `joy_callback`: the angular trim step and the mode step. -/
def joy_callback_mode (s : TeleopTwistJoyComfy) (joy : Joy) :
    TeleopTwistJoyComfy × List TwistMsg :=
  let s1 := if joy.button A then changeAngularVelocity s joy else s
  if joy.button B && !s1.auto_teleop_mode_ && !s1.button_b_state_ then
    autoTeleopStart s1
  else if joy.button B && s1.auto_teleop_mode_ && !s1.button_b_state_ then
    autoTeleopEnd s1
  else (s1, [])

/-- Lines 55-67 of `joy_callback`: everything before the test of button `X`. -/
def joy_callback_auto (s : TeleopTwistJoyComfy) (joy : Joy) :
    TeleopTwistJoyComfy × List TwistMsg :=
  let r2 := joy_callback_mode s joy
  if !joy.button B && r2.1.auto_teleop_mode_ then
    ((autoTeleop r2.1 joy).1, r2.2 ++ (autoTeleop r2.1 joy).2)
  else r2

/-- `joy_callback` (lines 53-82): the node after the snapshot and the messages
published while processing it, in order. -/
def joy_callback (s : TeleopTwistJoyComfy) (joy : Joy) :
    TeleopTwistJoyComfy × List TwistMsg :=
  let r3 := joy_callback_auto s joy
  let r4 :=
    if joy.button X then ((manualTeleop r3.1 joy).1, r3.2 ++ (manualTeleop r3.1 joy).2)
    else r3
  let s5 := if joy.button Y then changeLinearVelocity r4.1 joy else r4.1
  let out6 :=
    if !joy.button B && !joy.button X && !s5.auto_teleop_mode_ then r4.2 ++ stopVelocity s5
    else r4.2
  (manageButtonsState s5 joy, out6)

/-- The effective linear value of the spec: base + trim × scale. -/
def effLinear (s : TeleopTwistJoyComfy) : ℚ :=
  s.linear_x_ + s.speed_up_down_linear_x_ * s.speed_up_down_scale_linear_x_

/-- The effective angular value of the spec: base + trim × scale. -/
def effAngular (s : TeleopTwistJoyComfy) : ℚ :=
  s.angular_z_ + s.speed_up_down_angular_z_ * s.speed_up_down_scale_angular_z_

/-- The node after processing a sequence of snapshots, one `joy_callback` each. -/
def run (s : TeleopTwistJoyComfy) (joys : List Joy) : TeleopTwistJoyComfy :=
  joys.foldl (fun st joy => (joy_callback st joy).1) s

/-- The messages published snapshot by snapshot while a sequence of snapshots is
processed, one `joy_callback` each. -/
def runOut (s : TeleopTwistJoyComfy) : List Joy → List (List TwistMsg)
  | [] => []
  | joy :: joys => (joy_callback s joy).2 :: runOut (joy_callback s joy).1 joys

/-- The lock consistency of the spec (§3, §4.3): each decrement-lock is true iff the
effective value of its axis is below 0, each increment-lock iff it is above the
maximum. -/
def locksConsistent (s : TeleopTwistJoyComfy) : Prop :=
  (s.speed_down_linear_x_lock_ = true ↔ effLinear s < 0) ∧
  (s.speed_up_linear_x_lock_ = true ↔ effLinear s > s.linear_x_max_) ∧
  (s.speed_down_angular_z_lock_ = true ↔ effAngular s < 0) ∧
  (s.speed_up_angular_z_lock_ = true ↔ effAngular s > s.angular_z_max_)

instance (s : TeleopTwistJoyComfy) : Decidable (locksConsistent s) := by
  unfold locksConsistent
  infer_instance

/-- A snapshot with Y and right-trim held and every other button released. -/
def isTrimUp (joy : Joy) : Prop :=
  joy.button A = false ∧ joy.button B = false ∧ joy.button X = false ∧
  joy.button Y = true ∧ joy.button 4 = false ∧ joy.button 5 = true

instance (joy : Joy) : Decidable (isTrimUp joy) := by
  unfold isTrimUp
  infer_instance

/-- A snapshot with only Y held. -/
def isYOnly (joy : Joy) : Prop :=
  joy.button A = false ∧ joy.button B = false ∧ joy.button X = false ∧
  joy.button Y = true ∧ joy.button 4 = false ∧ joy.button 5 = false

instance (joy : Joy) : Decidable (isYOnly joy) := by
  unfold isYOnly
  infer_instance

/-- The sequence of snapshots that takes the two snapshots of each pair in turn. -/
def alternate : List (Joy × Joy) → List Joy
  | [] => []
  | p :: ps => p.1 :: p.2 :: alternate ps

/-- The manual branch of the spec (§4.4), linear and angular speed: each effective value
times its own axis (axis-linear = axes[1], axis-angular = axes[0]), clamped by the sign
of that axis. -/
def manualBranch (s : TeleopTwistJoyComfy) (joy : Joy) : ℚ × ℚ :=
  (if joy.axis 1 > 0 then clamp (effLinear s * joy.axis 1) 0 s.linear_x_max_
   else if joy.axis 1 < 0 then clamp (effLinear s * joy.axis 1) (-s.linear_x_max_) 0
   else effLinear s * joy.axis 1,
   if joy.axis 0 > 0 then clamp (effAngular s * joy.axis 0) 0 s.angular_z_max_
   else if joy.axis 0 < 0 then clamp (effAngular s * joy.axis 0) (-s.angular_z_max_) 0
   else effAngular s * joy.axis 0)

/-- The auto branch of the spec (§4.4), linear and angular speed, steered by the
auto-mode steering axis axes[3]. -/
def autoBranch (s : TeleopTwistJoyComfy) (joy : Joy) : ℚ × ℚ :=
  (clamp (effLinear s) 0 s.linear_x_max_,
   if joy.axis 3 > 0 then clamp (effAngular s * joy.axis 3) 0 s.angular_z_max_
   else if joy.axis 3 < 0 then clamp (effAngular s * joy.axis 3) (-s.angular_z_max_) 0
   else effAngular s * joy.axis 3)

/-! ### The same program with rounded arithmetic

The members are `double`s, so every `+`, `-` and `*` of the source rounds its result.
The definitions below repeat the arithmetic member functions with the result of every
such operation passed through a rounding function `rnd`; with `rnd` the identity they
are the definitions above. The conversion of a `float32` axis to `double` is exact and
`std::clamp` returns one of its arguments, so neither rounds. -/

/-- Round to the nearest integer, ties to the even one. -/
def roundTiesToEven (x : ℚ) : ℤ :=
  if x - ⌊x⌋ < 1 / 2 then ⌊x⌋
  else if 1 / 2 < x - ⌊x⌋ then ⌊x⌋ + 1
  else if ⌊x⌋ % 2 = 0 then ⌊x⌋ else ⌊x⌋ + 1

/-- The `double` (IEEE 754 binary64) nearest to `x`, ties to even, for `x` in the normal
range: with `2 ^ e ≤ |x| < 2 ^ (e + 1)` the result is a multiple of `2 ^ (e - 52)`.
Overflow and subnormal numbers are not modelled. -/
def binary64 (x : ℚ) : ℚ :=
  if x = 0 then 0
  else (roundTiesToEven (x / 2 ^ (Int.log 2 |x| - 52)) : ℚ) * 2 ^ (Int.log 2 |x| - 52)

/-- `manageSpeedUpDownLocks` (lines 172-193) with rounded arithmetic. -/
def manageSpeedUpDownLocks_fp (rnd : ℚ → ℚ) (s : TeleopTwistJoyComfy) :
    TeleopTwistJoyComfy :=
  { s with
    speed_down_linear_x_lock_ :=
      decide (rnd (s.linear_x_
        + rnd (s.speed_up_down_linear_x_ * s.speed_up_down_scale_linear_x_)) < 0)
    speed_up_linear_x_lock_ :=
      decide (rnd (s.linear_x_
        + rnd (s.speed_up_down_linear_x_ * s.speed_up_down_scale_linear_x_))
        > s.linear_x_max_)
    speed_down_angular_z_lock_ :=
      decide (rnd (s.angular_z_
        + rnd (s.speed_up_down_angular_z_ * s.speed_up_down_scale_angular_z_)) < 0)
    speed_up_angular_z_lock_ :=
      decide (rnd (s.angular_z_
        + rnd (s.speed_up_down_angular_z_ * s.speed_up_down_scale_angular_z_))
        > s.angular_z_max_) }

/-- `calcTwist<T>` (lines 110-162) with rounded arithmetic. -/
def calcTwist_fp (rnd : ℚ → ℚ) (s : TeleopTwistJoyComfy) (joy : Joy) (stamped : Bool) :
    TeleopTwistJoyComfy × TwistMsg :=
  let v : ℚ × ℚ :=
    if s.auto_teleop_mode_ then
      let linear_x :=
        rnd (s.linear_x_ + rnd (s.speed_up_down_linear_x_ * s.speed_up_down_scale_linear_x_))
      let angular_z :=
        rnd (rnd (s.angular_z_
          + rnd (s.speed_up_down_angular_z_ * s.speed_up_down_scale_angular_z_))
          * joy.axis 3)
      let linear_x := clamp linear_x 0 s.linear_x_max_
      let angular_z :=
        if joy.axis 3 > 0 then clamp angular_z 0 s.angular_z_max_
        else if joy.axis 3 < 0 then clamp angular_z (rnd (-1 * s.angular_z_max_)) 0
        else angular_z
      (linear_x, angular_z)
    else
      let linear_x :=
        rnd (rnd (s.linear_x_
          + rnd (s.speed_up_down_linear_x_ * s.speed_up_down_scale_linear_x_))
          * joy.axis 1)
      let angular_z :=
        rnd (rnd (s.angular_z_
          + rnd (s.speed_up_down_angular_z_ * s.speed_up_down_scale_angular_z_))
          * joy.axis 0)
      let linear_x :=
        if joy.axis 1 > 0 then clamp linear_x 0 s.linear_x_max_
        else if joy.axis 1 < 0 then clamp linear_x (rnd (-1 * s.linear_x_max_)) 0
        else linear_x
      let angular_z :=
        if joy.axis 0 > 0 then clamp angular_z 0 s.angular_z_max_
        else if joy.axis 0 < 0 then clamp angular_z (rnd (-1 * s.angular_z_max_)) 0
        else angular_z
      (linear_x, angular_z)
  let s1 := manageSpeedUpDownLocks_fp rnd s
  if !stamped then
    (s1, { frame_id := none, linear_x := v.1, angular_z := v.2 })
  else
    (s1, { frame_id := some s1.frame_id_, linear_x := v.1, angular_z := v.2 })

/-- `autoTeleop` (lines 102-108) with rounded arithmetic. -/
def autoTeleop_fp (rnd : ℚ → ℚ) (s : TeleopTwistJoyComfy) (joy : Joy) :
    TeleopTwistJoyComfy × List TwistMsg :=
  if !s.publish_twist_stamped_ then
    ((calcTwist_fp rnd s joy false).1, publishTwist (calcTwist_fp rnd s joy false).2)
  else
    ((calcTwist_fp rnd s joy true).1, publishTwist (calcTwist_fp rnd s joy true).2)

/-- `manualTeleop` (lines 227-233) with rounded arithmetic. -/
def manualTeleop_fp (rnd : ℚ → ℚ) (s : TeleopTwistJoyComfy) (joy : Joy) :
    TeleopTwistJoyComfy × List TwistMsg :=
  if !s.publish_twist_stamped_ then
    ((calcTwist_fp rnd s joy false).1, publishTwist (calcTwist_fp rnd s joy false).2)
  else
    ((calcTwist_fp rnd s joy true).1, publishTwist (calcTwist_fp rnd s joy true).2)

/-- `changeLinearVelocity` (lines 235-252) with rounded arithmetic. -/
def changeLinearVelocity_fp (rnd : ℚ → ℚ) (s : TeleopTwistJoyComfy) (joy : Joy) :
    TeleopTwistJoyComfy :=
  let s1 :=
    if !s.speed_down_linear_x_lock_ then
      if joy.button 4 && !s.button_lb_state_ then
        { s with speed_up_down_linear_x_ :=
                      rnd (s.speed_up_down_linear_x_ - s.speed_up_down_linear_x_original_) }
      else s
    else s
  if !s1.speed_up_linear_x_lock_ then
    if joy.button 5 && !s1.button_rb_state_ then
      { s1 with speed_up_down_linear_x_ :=
                      rnd (s1.speed_up_down_linear_x_ + s1.speed_up_down_linear_x_original_) }
    else s1
  else s1

/-- `changeAngularVelocity` (lines 254-271) with rounded arithmetic. -/
def changeAngularVelocity_fp (rnd : ℚ → ℚ) (s : TeleopTwistJoyComfy) (joy : Joy) :
    TeleopTwistJoyComfy :=
  let s1 :=
    if !s.speed_down_angular_z_lock_ then
      if joy.button 4 && !s.button_lb_state_ then
        { s with speed_up_down_angular_z_ :=
                      rnd (s.speed_up_down_angular_z_ - s.speed_up_down_angular_z_original_) }
      else s
    else s
  if !s1.speed_up_angular_z_lock_ then
    if joy.button 5 && !s1.button_rb_state_ then
      { s1 with speed_up_down_angular_z_ :=
                      rnd (s1.speed_up_down_angular_z_ + s1.speed_up_down_angular_z_original_) }
    else s1
  else s1

/-- Lines 55-63 of `joy_callback` with rounded arithmetic. -/
def joy_callback_mode_fp (rnd : ℚ → ℚ) (s : TeleopTwistJoyComfy) (joy : Joy) :
    TeleopTwistJoyComfy × List TwistMsg :=
  let s1 := if joy.button A then changeAngularVelocity_fp rnd s joy else s
  if joy.button B && !s1.auto_teleop_mode_ && !s1.button_b_state_ then
    autoTeleopStart s1
  else if joy.button B && s1.auto_teleop_mode_ && !s1.button_b_state_ then
    autoTeleopEnd s1
  else (s1, [])

/-- Lines 55-67 of `joy_callback` with rounded arithmetic. -/
def joy_callback_auto_fp (rnd : ℚ → ℚ) (s : TeleopTwistJoyComfy) (joy : Joy) :
    TeleopTwistJoyComfy × List TwistMsg :=
  let r2 := joy_callback_mode_fp rnd s joy
  if !joy.button B && r2.1.auto_teleop_mode_ then
    ((autoTeleop_fp rnd r2.1 joy).1, r2.2 ++ (autoTeleop_fp rnd r2.1 joy).2)
  else r2

/-- `joy_callback` (lines 53-82) with rounded arithmetic. -/
def joy_callback_fp (rnd : ℚ → ℚ) (s : TeleopTwistJoyComfy) (joy : Joy) :
    TeleopTwistJoyComfy × List TwistMsg :=
  let r3 := joy_callback_auto_fp rnd s joy
  let r4 :=
    if joy.button X then
      ((manualTeleop_fp rnd r3.1 joy).1, r3.2 ++ (manualTeleop_fp rnd r3.1 joy).2)
    else r3
  let s5 := if joy.button Y then changeLinearVelocity_fp rnd r4.1 joy else r4.1
  let out6 :=
    if !joy.button B && !joy.button X && !s5.auto_teleop_mode_ then r4.2 ++ stopVelocity s5
    else r4.2
  (manageButtonsState s5 joy, out6)

/-- The node after a sequence of snapshots, with rounded arithmetic. -/
def run_fp (rnd : ℚ → ℚ) (s : TeleopTwistJoyComfy) (joys : List Joy) :
    TeleopTwistJoyComfy :=
  joys.foldl (fun st joy => (joy_callback_fp rnd st joy).1) s

/-- A snapshot given by its six buttons (A, B, X, Y, left trim, right trim) and the
axes 0 to 3. -/
def mkJoy (a b x y lb rb : Bool) (ax0 ax1 ax2 ax3 : ℚ) : Joy where
  axes := [ax0, ax1, ax2, ax3]
  buttons := [a, b, x, y, lb, rb].map (fun h => if h then 1 else 0)

@[simp] theorem mkJoy_axis0 (a b x y lb rb : Bool) (ax0 ax1 ax2 ax3 : ℚ) :
    (mkJoy a b x y lb rb ax0 ax1 ax2 ax3).axis 0 = ax0 := rfl

@[simp] theorem mkJoy_axis1 (a b x y lb rb : Bool) (ax0 ax1 ax2 ax3 : ℚ) :
    (mkJoy a b x y lb rb ax0 ax1 ax2 ax3).axis 1 = ax1 := rfl

@[simp] theorem mkJoy_axis3 (a b x y lb rb : Bool) (ax0 ax1 ax2 ax3 : ℚ) :
    (mkJoy a b x y lb rb ax0 ax1 ax2 ax3).axis 3 = ax3 := rfl

@[simp] theorem mkJoy_button_A (a b x y lb rb : Bool) (ax0 ax1 ax2 ax3 : ℚ) :
    (mkJoy a b x y lb rb ax0 ax1 ax2 ax3).button A = a := by
  cases a <;> rfl

@[simp] theorem mkJoy_button_B (a b x y lb rb : Bool) (ax0 ax1 ax2 ax3 : ℚ) :
    (mkJoy a b x y lb rb ax0 ax1 ax2 ax3).button B = b := by
  cases b <;> rfl

@[simp] theorem mkJoy_button_X (a b x y lb rb : Bool) (ax0 ax1 ax2 ax3 : ℚ) :
    (mkJoy a b x y lb rb ax0 ax1 ax2 ax3).button X = x := by
  cases x <;> rfl

@[simp] theorem mkJoy_button_Y (a b x y lb rb : Bool) (ax0 ax1 ax2 ax3 : ℚ) :
    (mkJoy a b x y lb rb ax0 ax1 ax2 ax3).button Y = y := by
  cases y <;> rfl

@[simp] theorem mkJoy_button_4 (a b x y lb rb : Bool) (ax0 ax1 ax2 ax3 : ℚ) :
    (mkJoy a b x y lb rb ax0 ax1 ax2 ax3).button 4 = lb := by
  cases lb <;> rfl

@[simp] theorem mkJoy_button_5 (a b x y lb rb : Bool) (ax0 ax1 ax2 ax3 : ℚ) :
    (mkJoy a b x y lb rb ax0 ax1 ax2 ax3).button 5 = rb := by
  cases rb <;> rfl

/-! ## Command computation -/

/-- The linear speed of the message `calcTwist` builds. -/
theorem calcTwist_linear_x (s : TeleopTwistJoyComfy) (joy : Joy) (stamped : Bool) :
    (calcTwist s joy stamped).2.linear_x =
      if s.auto_teleop_mode_ then clamp (effLinear s) 0 s.linear_x_max_
      else if joy.axis 1 > 0 then clamp (effLinear s * joy.axis 1) 0 s.linear_x_max_
      else if joy.axis 1 < 0 then clamp (effLinear s * joy.axis 1) (-1 * s.linear_x_max_) 0
      else effLinear s * joy.axis 1 := by
  cases stamped <;> cases h : s.auto_teleop_mode_ <;>
    simp [calcTwist, h, effLinear, effAngular]

/-- The angular speed of the message `calcTwist` builds. -/
theorem calcTwist_angular_z (s : TeleopTwistJoyComfy) (joy : Joy) (stamped : Bool) :
    (calcTwist s joy stamped).2.angular_z =
      if s.auto_teleop_mode_ then
        if joy.axis 3 > 0 then clamp (effAngular s * joy.axis 3) 0 s.angular_z_max_
        else if joy.axis 3 < 0 then
          clamp (effAngular s * joy.axis 3) (-1 * s.angular_z_max_) 0
        else effAngular s * joy.axis 3
      else if joy.axis 0 > 0 then clamp (effAngular s * joy.axis 0) 0 s.angular_z_max_
      else if joy.axis 0 < 0 then clamp (effAngular s * joy.axis 0) (-1 * s.angular_z_max_) 0
      else effAngular s * joy.axis 0 := by
  cases stamped <;> cases h : s.auto_teleop_mode_ <;>
    simp [calcTwist, h, effLinear, effAngular]

/-- The node `calcTwist` returns is the node after `manageSpeedUpDownLocks`. -/
theorem calcTwist_fst (s : TeleopTwistJoyComfy) (joy : Joy) (stamped : Bool) :
    (calcTwist s joy stamped).1 = manageSpeedUpDownLocks s := by
  cases stamped <;> rfl

/-- A product with a factor that is neither positive nor negative is zero. -/
theorem mul_axis_zero (e a : ℚ) (h1 : ¬ a > 0) (h2 : ¬ a < 0) : e * a = 0 := by
  have h : a = 0 := le_antisymm (not_lt.mp h1) (not_lt.mp h2)
  rw [h, mul_zero]

/-- C1. Manual branch of `calcTwist`: with both maxima non-negative and the mode flag
false, the command has linear = clamp(effLinear * axes[1], 0, maxLinear) when
axes[1] > 0, clamp(effLinear * axes[1], -maxLinear, 0) when axes[1] < 0 and 0 when
axes[1] = 0; angular follows the same rule with axes[0], effAngular and maxAngular. -/
theorem calcTwist_manual_branch (s : TeleopTwistJoyComfy) (joy : Joy) (stamped : Bool)
    (_hl : 0 ≤ s.linear_x_max_) (_ha : 0 ≤ s.angular_z_max_)
    (hm : s.auto_teleop_mode_ = false) :
    ((calcTwist s joy stamped).2.linear_x =
      if joy.axis 1 > 0 then clamp (effLinear s * joy.axis 1) 0 s.linear_x_max_
      else if joy.axis 1 < 0 then clamp (effLinear s * joy.axis 1) (-s.linear_x_max_) 0
      else 0) ∧
    ((calcTwist s joy stamped).2.angular_z =
      if joy.axis 0 > 0 then clamp (effAngular s * joy.axis 0) 0 s.angular_z_max_
      else if joy.axis 0 < 0 then clamp (effAngular s * joy.axis 0) (-s.angular_z_max_) 0
      else 0) := by
  rw [calcTwist_linear_x, calcTwist_angular_z, hm]
  simp only [Bool.false_eq_true, if_false, neg_one_mul]
  constructor
  · by_cases h1 : joy.axis 1 > 0
    · simp only [h1, if_true]
    · by_cases h2 : joy.axis 1 < 0
      · simp only [h1, h2, if_true, if_false]
      · simp only [h1, h2, if_false, mul_axis_zero _ _ h1 h2]
  · by_cases h1 : joy.axis 0 > 0
    · simp only [h1, if_true]
    · by_cases h2 : joy.axis 0 < 0
      · simp only [h1, h2, if_true, if_false]
      · simp only [h1, h2, if_false, mul_axis_zero _ _ h1 h2]

/-- C1, witness: axes[1] = 0.6, axes[0] = 0, base 0.5, trim 0, scale 1, max 1 give
linear = 0.3 and angular = 0. -/
theorem calcTwist_manual_branch_witness :
    (calcTwist getParam (mkJoy false false true false false false 0 (3 / 5) 0 0) true).2.linear_x
        = 3 / 10 ∧
    (calcTwist getParam (mkJoy false false true false false false 0 (3 / 5) 0 0) true).2.angular_z
        = 0 := by
  have h := calcTwist_manual_branch getParam
    (mkJoy false false true false false false 0 (3 / 5) 0 0) true
    (by norm_num [getParam]) (by norm_num [getParam]) rfl
  rw [h.1, h.2]
  simp only [mkJoy_axis0, mkJoy_axis1, effLinear, effAngular, clamp, getParam]
  norm_num

/-- C2. Auto branch of `calcTwist`: with both maxima non-negative and the mode flag
true, linear = clamp(effLinear, 0, maxLinear) whatever the steering axis is, and with
a = axes[3] and e = effAngular * a, angular = clamp(e, 0, maxAngular) when a > 0,
clamp(e, -maxAngular, 0) when a < 0 and 0 when a = 0. -/
theorem calcTwist_auto_branch (s : TeleopTwistJoyComfy) (joy : Joy) (stamped : Bool)
    (_hl : 0 ≤ s.linear_x_max_) (_ha : 0 ≤ s.angular_z_max_)
    (hm : s.auto_teleop_mode_ = true) :
    (calcTwist s joy stamped).2.linear_x = clamp (effLinear s) 0 s.linear_x_max_ ∧
    ((calcTwist s joy stamped).2.angular_z =
      if joy.axis 3 > 0 then clamp (effAngular s * joy.axis 3) 0 s.angular_z_max_
      else if joy.axis 3 < 0 then clamp (effAngular s * joy.axis 3) (-s.angular_z_max_) 0
      else 0) := by
  rw [calcTwist_linear_x, calcTwist_angular_z, hm]
  simp only [if_true, neg_one_mul, true_and]
  by_cases h1 : joy.axis 3 > 0
  · simp only [h1, if_true]
  · by_cases h2 : joy.axis 3 < 0
    · simp only [h1, h2, if_true, if_false]
    · simp only [h1, h2, if_false, mul_axis_zero _ _ h1 h2]

/-- C2, witness: steering axis -0.5, base angular 0.5, max angular 1, trims 0, base
linear 0.5 give angular = -0.25 and linear = 0.5. -/
theorem calcTwist_auto_branch_witness :
    (calcTwist { getParam with auto_teleop_mode_ := true }
        (mkJoy false false false false false false 0 0 0 (-1 / 2)) true).2.linear_x = 1 / 2 ∧
    (calcTwist { getParam with auto_teleop_mode_ := true }
        (mkJoy false false false false false false 0 0 0 (-1 / 2)) true).2.angular_z
      = -1 / 4 := by
  have h := calcTwist_auto_branch { getParam with auto_teleop_mode_ := true }
    (mkJoy false false false false false false 0 0 0 (-1 / 2)) true
    (by norm_num [getParam]) (by norm_num [getParam]) rfl
  rw [h.1, h.2]
  simp only [mkJoy_axis3, effLinear, effAngular, clamp, getParam]
  norm_num

/-! ## What each member function leaves alone -/

@[simp] theorem changeAngularVelocity_linear_x (s : TeleopTwistJoyComfy) (joy : Joy) :
    (changeAngularVelocity s joy).linear_x_ = s.linear_x_ := by
  simp only [changeAngularVelocity]; split_ifs <;> rfl

@[simp] theorem changeAngularVelocity_linear_x_max (s : TeleopTwistJoyComfy) (joy : Joy) :
    (changeAngularVelocity s joy).linear_x_max_ = s.linear_x_max_ := by
  simp only [changeAngularVelocity]; split_ifs <;> rfl

@[simp] theorem changeAngularVelocity_angular_z (s : TeleopTwistJoyComfy) (joy : Joy) :
    (changeAngularVelocity s joy).angular_z_ = s.angular_z_ := by
  simp only [changeAngularVelocity]; split_ifs <;> rfl

@[simp] theorem changeAngularVelocity_angular_z_max (s : TeleopTwistJoyComfy) (joy : Joy) :
    (changeAngularVelocity s joy).angular_z_max_ = s.angular_z_max_ := by
  simp only [changeAngularVelocity]; split_ifs <;> rfl

@[simp] theorem changeAngularVelocity_speed_up_down_linear_x_original (s : TeleopTwistJoyComfy) (joy : Joy) :
    (changeAngularVelocity s joy).speed_up_down_linear_x_original_ = s.speed_up_down_linear_x_original_ := by
  simp only [changeAngularVelocity]; split_ifs <;> rfl

@[simp] theorem changeAngularVelocity_speed_up_down_angular_z_original (s : TeleopTwistJoyComfy) (joy : Joy) :
    (changeAngularVelocity s joy).speed_up_down_angular_z_original_ = s.speed_up_down_angular_z_original_ := by
  simp only [changeAngularVelocity]; split_ifs <;> rfl

@[simp] theorem changeAngularVelocity_speed_up_down_scale_linear_x (s : TeleopTwistJoyComfy) (joy : Joy) :
    (changeAngularVelocity s joy).speed_up_down_scale_linear_x_ = s.speed_up_down_scale_linear_x_ := by
  simp only [changeAngularVelocity]; split_ifs <;> rfl

@[simp] theorem changeAngularVelocity_speed_up_down_scale_angular_z (s : TeleopTwistJoyComfy) (joy : Joy) :
    (changeAngularVelocity s joy).speed_up_down_scale_angular_z_ = s.speed_up_down_scale_angular_z_ := by
  simp only [changeAngularVelocity]; split_ifs <;> rfl

@[simp] theorem changeAngularVelocity_publish_twist_stamped (s : TeleopTwistJoyComfy) (joy : Joy) :
    (changeAngularVelocity s joy).publish_twist_stamped_ = s.publish_twist_stamped_ := by
  simp only [changeAngularVelocity]; split_ifs <;> rfl

@[simp] theorem changeAngularVelocity_frame_id (s : TeleopTwistJoyComfy) (joy : Joy) :
    (changeAngularVelocity s joy).frame_id_ = s.frame_id_ := by
  simp only [changeAngularVelocity]; split_ifs <;> rfl

@[simp] theorem changeAngularVelocity_auto_teleop_mode (s : TeleopTwistJoyComfy) (joy : Joy) :
    (changeAngularVelocity s joy).auto_teleop_mode_ = s.auto_teleop_mode_ := by
  simp only [changeAngularVelocity]; split_ifs <;> rfl

@[simp] theorem changeAngularVelocity_speed_up_down_linear_x (s : TeleopTwistJoyComfy) (joy : Joy) :
    (changeAngularVelocity s joy).speed_up_down_linear_x_ = s.speed_up_down_linear_x_ := by
  simp only [changeAngularVelocity]; split_ifs <;> rfl

@[simp] theorem changeAngularVelocity_speed_down_linear_x_lock (s : TeleopTwistJoyComfy) (joy : Joy) :
    (changeAngularVelocity s joy).speed_down_linear_x_lock_ = s.speed_down_linear_x_lock_ := by
  simp only [changeAngularVelocity]; split_ifs <;> rfl

@[simp] theorem changeAngularVelocity_speed_up_linear_x_lock (s : TeleopTwistJoyComfy) (joy : Joy) :
    (changeAngularVelocity s joy).speed_up_linear_x_lock_ = s.speed_up_linear_x_lock_ := by
  simp only [changeAngularVelocity]; split_ifs <;> rfl

@[simp] theorem changeAngularVelocity_speed_down_angular_z_lock (s : TeleopTwistJoyComfy) (joy : Joy) :
    (changeAngularVelocity s joy).speed_down_angular_z_lock_ = s.speed_down_angular_z_lock_ := by
  simp only [changeAngularVelocity]; split_ifs <;> rfl

@[simp] theorem changeAngularVelocity_speed_up_angular_z_lock (s : TeleopTwistJoyComfy) (joy : Joy) :
    (changeAngularVelocity s joy).speed_up_angular_z_lock_ = s.speed_up_angular_z_lock_ := by
  simp only [changeAngularVelocity]; split_ifs <;> rfl

@[simp] theorem changeAngularVelocity_button_b_state (s : TeleopTwistJoyComfy) (joy : Joy) :
    (changeAngularVelocity s joy).button_b_state_ = s.button_b_state_ := by
  simp only [changeAngularVelocity]; split_ifs <;> rfl

@[simp] theorem changeAngularVelocity_button_lb_state (s : TeleopTwistJoyComfy) (joy : Joy) :
    (changeAngularVelocity s joy).button_lb_state_ = s.button_lb_state_ := by
  simp only [changeAngularVelocity]; split_ifs <;> rfl

@[simp] theorem changeAngularVelocity_button_rb_state (s : TeleopTwistJoyComfy) (joy : Joy) :
    (changeAngularVelocity s joy).button_rb_state_ = s.button_rb_state_ := by
  simp only [changeAngularVelocity]; split_ifs <;> rfl

@[simp] theorem changeLinearVelocity_linear_x (s : TeleopTwistJoyComfy) (joy : Joy) :
    (changeLinearVelocity s joy).linear_x_ = s.linear_x_ := by
  simp only [changeLinearVelocity]; split_ifs <;> rfl

@[simp] theorem changeLinearVelocity_linear_x_max (s : TeleopTwistJoyComfy) (joy : Joy) :
    (changeLinearVelocity s joy).linear_x_max_ = s.linear_x_max_ := by
  simp only [changeLinearVelocity]; split_ifs <;> rfl

@[simp] theorem changeLinearVelocity_angular_z (s : TeleopTwistJoyComfy) (joy : Joy) :
    (changeLinearVelocity s joy).angular_z_ = s.angular_z_ := by
  simp only [changeLinearVelocity]; split_ifs <;> rfl

@[simp] theorem changeLinearVelocity_angular_z_max (s : TeleopTwistJoyComfy) (joy : Joy) :
    (changeLinearVelocity s joy).angular_z_max_ = s.angular_z_max_ := by
  simp only [changeLinearVelocity]; split_ifs <;> rfl

@[simp] theorem changeLinearVelocity_speed_up_down_linear_x_original (s : TeleopTwistJoyComfy) (joy : Joy) :
    (changeLinearVelocity s joy).speed_up_down_linear_x_original_ = s.speed_up_down_linear_x_original_ := by
  simp only [changeLinearVelocity]; split_ifs <;> rfl

@[simp] theorem changeLinearVelocity_speed_up_down_angular_z_original (s : TeleopTwistJoyComfy) (joy : Joy) :
    (changeLinearVelocity s joy).speed_up_down_angular_z_original_ = s.speed_up_down_angular_z_original_ := by
  simp only [changeLinearVelocity]; split_ifs <;> rfl

@[simp] theorem changeLinearVelocity_speed_up_down_scale_linear_x (s : TeleopTwistJoyComfy) (joy : Joy) :
    (changeLinearVelocity s joy).speed_up_down_scale_linear_x_ = s.speed_up_down_scale_linear_x_ := by
  simp only [changeLinearVelocity]; split_ifs <;> rfl

@[simp] theorem changeLinearVelocity_speed_up_down_scale_angular_z (s : TeleopTwistJoyComfy) (joy : Joy) :
    (changeLinearVelocity s joy).speed_up_down_scale_angular_z_ = s.speed_up_down_scale_angular_z_ := by
  simp only [changeLinearVelocity]; split_ifs <;> rfl

@[simp] theorem changeLinearVelocity_publish_twist_stamped (s : TeleopTwistJoyComfy) (joy : Joy) :
    (changeLinearVelocity s joy).publish_twist_stamped_ = s.publish_twist_stamped_ := by
  simp only [changeLinearVelocity]; split_ifs <;> rfl

@[simp] theorem changeLinearVelocity_frame_id (s : TeleopTwistJoyComfy) (joy : Joy) :
    (changeLinearVelocity s joy).frame_id_ = s.frame_id_ := by
  simp only [changeLinearVelocity]; split_ifs <;> rfl

@[simp] theorem changeLinearVelocity_auto_teleop_mode (s : TeleopTwistJoyComfy) (joy : Joy) :
    (changeLinearVelocity s joy).auto_teleop_mode_ = s.auto_teleop_mode_ := by
  simp only [changeLinearVelocity]; split_ifs <;> rfl

@[simp] theorem changeLinearVelocity_speed_up_down_angular_z (s : TeleopTwistJoyComfy) (joy : Joy) :
    (changeLinearVelocity s joy).speed_up_down_angular_z_ = s.speed_up_down_angular_z_ := by
  simp only [changeLinearVelocity]; split_ifs <;> rfl

@[simp] theorem changeLinearVelocity_speed_down_linear_x_lock (s : TeleopTwistJoyComfy) (joy : Joy) :
    (changeLinearVelocity s joy).speed_down_linear_x_lock_ = s.speed_down_linear_x_lock_ := by
  simp only [changeLinearVelocity]; split_ifs <;> rfl

@[simp] theorem changeLinearVelocity_speed_up_linear_x_lock (s : TeleopTwistJoyComfy) (joy : Joy) :
    (changeLinearVelocity s joy).speed_up_linear_x_lock_ = s.speed_up_linear_x_lock_ := by
  simp only [changeLinearVelocity]; split_ifs <;> rfl

@[simp] theorem changeLinearVelocity_speed_down_angular_z_lock (s : TeleopTwistJoyComfy) (joy : Joy) :
    (changeLinearVelocity s joy).speed_down_angular_z_lock_ = s.speed_down_angular_z_lock_ := by
  simp only [changeLinearVelocity]; split_ifs <;> rfl

@[simp] theorem changeLinearVelocity_speed_up_angular_z_lock (s : TeleopTwistJoyComfy) (joy : Joy) :
    (changeLinearVelocity s joy).speed_up_angular_z_lock_ = s.speed_up_angular_z_lock_ := by
  simp only [changeLinearVelocity]; split_ifs <;> rfl

@[simp] theorem changeLinearVelocity_button_b_state (s : TeleopTwistJoyComfy) (joy : Joy) :
    (changeLinearVelocity s joy).button_b_state_ = s.button_b_state_ := by
  simp only [changeLinearVelocity]; split_ifs <;> rfl

@[simp] theorem changeLinearVelocity_button_lb_state (s : TeleopTwistJoyComfy) (joy : Joy) :
    (changeLinearVelocity s joy).button_lb_state_ = s.button_lb_state_ := by
  simp only [changeLinearVelocity]; split_ifs <;> rfl

@[simp] theorem changeLinearVelocity_button_rb_state (s : TeleopTwistJoyComfy) (joy : Joy) :
    (changeLinearVelocity s joy).button_rb_state_ = s.button_rb_state_ := by
  simp only [changeLinearVelocity]; split_ifs <;> rfl

@[simp] theorem manageSpeedUpDownLocks_linear_x (s : TeleopTwistJoyComfy) :
    (manageSpeedUpDownLocks s).linear_x_ = s.linear_x_ := rfl

@[simp] theorem manageSpeedUpDownLocks_linear_x_max (s : TeleopTwistJoyComfy) :
    (manageSpeedUpDownLocks s).linear_x_max_ = s.linear_x_max_ := rfl

@[simp] theorem manageSpeedUpDownLocks_angular_z (s : TeleopTwistJoyComfy) :
    (manageSpeedUpDownLocks s).angular_z_ = s.angular_z_ := rfl

@[simp] theorem manageSpeedUpDownLocks_angular_z_max (s : TeleopTwistJoyComfy) :
    (manageSpeedUpDownLocks s).angular_z_max_ = s.angular_z_max_ := rfl

@[simp] theorem manageSpeedUpDownLocks_speed_up_down_linear_x_original (s : TeleopTwistJoyComfy) :
    (manageSpeedUpDownLocks s).speed_up_down_linear_x_original_ = s.speed_up_down_linear_x_original_ := rfl

@[simp] theorem manageSpeedUpDownLocks_speed_up_down_angular_z_original (s : TeleopTwistJoyComfy) :
    (manageSpeedUpDownLocks s).speed_up_down_angular_z_original_ = s.speed_up_down_angular_z_original_ := rfl

@[simp] theorem manageSpeedUpDownLocks_speed_up_down_scale_linear_x (s : TeleopTwistJoyComfy) :
    (manageSpeedUpDownLocks s).speed_up_down_scale_linear_x_ = s.speed_up_down_scale_linear_x_ := rfl

@[simp] theorem manageSpeedUpDownLocks_speed_up_down_scale_angular_z (s : TeleopTwistJoyComfy) :
    (manageSpeedUpDownLocks s).speed_up_down_scale_angular_z_ = s.speed_up_down_scale_angular_z_ := rfl

@[simp] theorem manageSpeedUpDownLocks_publish_twist_stamped (s : TeleopTwistJoyComfy) :
    (manageSpeedUpDownLocks s).publish_twist_stamped_ = s.publish_twist_stamped_ := rfl

@[simp] theorem manageSpeedUpDownLocks_frame_id (s : TeleopTwistJoyComfy) :
    (manageSpeedUpDownLocks s).frame_id_ = s.frame_id_ := rfl

@[simp] theorem manageSpeedUpDownLocks_auto_teleop_mode (s : TeleopTwistJoyComfy) :
    (manageSpeedUpDownLocks s).auto_teleop_mode_ = s.auto_teleop_mode_ := rfl

@[simp] theorem manageSpeedUpDownLocks_speed_up_down_linear_x (s : TeleopTwistJoyComfy) :
    (manageSpeedUpDownLocks s).speed_up_down_linear_x_ = s.speed_up_down_linear_x_ := rfl

@[simp] theorem manageSpeedUpDownLocks_speed_up_down_angular_z (s : TeleopTwistJoyComfy) :
    (manageSpeedUpDownLocks s).speed_up_down_angular_z_ = s.speed_up_down_angular_z_ := rfl

@[simp] theorem manageSpeedUpDownLocks_button_b_state (s : TeleopTwistJoyComfy) :
    (manageSpeedUpDownLocks s).button_b_state_ = s.button_b_state_ := rfl

@[simp] theorem manageSpeedUpDownLocks_button_lb_state (s : TeleopTwistJoyComfy) :
    (manageSpeedUpDownLocks s).button_lb_state_ = s.button_lb_state_ := rfl

@[simp] theorem manageSpeedUpDownLocks_button_rb_state (s : TeleopTwistJoyComfy) :
    (manageSpeedUpDownLocks s).button_rb_state_ = s.button_rb_state_ := rfl

/-- `stopVelocity` publishes exactly one message, with both speeds zero. -/
theorem stopVelocity_eq (s : TeleopTwistJoyComfy) :
    stopVelocity s =
      [{ frame_id := if s.publish_twist_stamped_ then some "" else none,
         linear_x := 0, angular_z := 0 }] := by
  cases h : s.publish_twist_stamped_ <;> simp [stopVelocity, publishZeroTwist, h]

/-- `autoTeleop` recomputes the locks and publishes the message of `calcTwist`. -/
theorem autoTeleop_eq (s : TeleopTwistJoyComfy) (joy : Joy) :
    autoTeleop s joy =
      (manageSpeedUpDownLocks s, [(calcTwist s joy s.publish_twist_stamped_).2]) := by
  cases h : s.publish_twist_stamped_ <;>
    simp [autoTeleop, publishTwist, h, calcTwist_fst]

/-- `manualTeleop` recomputes the locks and publishes the message of `calcTwist`. -/
theorem manualTeleop_eq (s : TeleopTwistJoyComfy) (joy : Joy) :
    manualTeleop s joy =
      (manageSpeedUpDownLocks s, [(calcTwist s joy s.publish_twist_stamped_).2]) := by
  cases h : s.publish_twist_stamped_ <;>
    simp [manualTeleop, publishTwist, h, calcTwist_fst]

/-! ## The steps of `joy_callback` -/

/-- The mode flag after the mode step: toggled on a rising edge of B, else kept. -/
theorem joy_callback_mode_auto (s : TeleopTwistJoyComfy) (joy : Joy) :
    (joy_callback_mode s joy).1.auto_teleop_mode_ =
      if joy.button B && !s.button_b_state_ then !s.auto_teleop_mode_
      else s.auto_teleop_mode_ := by
  unfold joy_callback_mode autoTeleopStart autoTeleopEnd resetAllSpeedUpDownLocks
  cases joy.button A <;> cases joy.button B <;> cases h1 : s.auto_teleop_mode_ <;>
    cases h2 : s.button_b_state_ <;> simp [h1, h2]

/-- The messages of the mode step: the zero command when auto mode ends. -/
theorem joy_callback_mode_out (s : TeleopTwistJoyComfy) (joy : Joy) :
    (joy_callback_mode s joy).2 =
      if joy.button B && s.auto_teleop_mode_ && !s.button_b_state_ then stopVelocity s
      else [] := by
  unfold joy_callback_mode autoTeleopStart autoTeleopEnd resetAllSpeedUpDownLocks
  cases joy.button A <;> cases joy.button B <;> cases h1 : s.auto_teleop_mode_ <;>
    cases h2 : s.button_b_state_ <;> simp [h1, h2, stopVelocity]

/-- The mode step leaves the publisher choice alone. -/
theorem joy_callback_mode_publish (s : TeleopTwistJoyComfy) (joy : Joy) :
    (joy_callback_mode s joy).1.publish_twist_stamped_ = s.publish_twist_stamped_ := by
  cases hA : joy.button A <;> cases hB : joy.button B <;>
    cases h1 : s.auto_teleop_mode_ <;> cases h2 : s.button_b_state_ <;>
    simp [joy_callback_mode, autoTeleopStart, autoTeleopEnd, resetAllSpeedUpDownLocks,
      hA, hB, h1, h2]

/-- The mode step leaves the linear trim alone. -/
theorem joy_callback_mode_trim_linear (s : TeleopTwistJoyComfy) (joy : Joy) :
    (joy_callback_mode s joy).1.speed_up_down_linear_x_ = s.speed_up_down_linear_x_ := by
  cases hA : joy.button A <;> cases hB : joy.button B <;>
    cases h1 : s.auto_teleop_mode_ <;> cases h2 : s.button_b_state_ <;>
    simp [joy_callback_mode, autoTeleopStart, autoTeleopEnd, resetAllSpeedUpDownLocks,
      hA, hB, h1, h2]

/-- The angular trim after the mode step is the one the trim step of button A left. -/
theorem joy_callback_mode_trim_angular (s : TeleopTwistJoyComfy) (joy : Joy) :
    (joy_callback_mode s joy).1.speed_up_down_angular_z_ =
      if joy.button A then (changeAngularVelocity s joy).speed_up_down_angular_z_
      else s.speed_up_down_angular_z_ := by
  cases hA : joy.button A <;> cases hB : joy.button B <;>
    cases h1 : s.auto_teleop_mode_ <;> cases h2 : s.button_b_state_ <;>
    simp [joy_callback_mode, autoTeleopStart, autoTeleopEnd, resetAllSpeedUpDownLocks,
      hA, hB, h1, h2]

/-- The auto step changes neither the mode flag nor the publisher choice nor a trim. -/
theorem joy_callback_auto_fields (s : TeleopTwistJoyComfy) (joy : Joy) :
    (joy_callback_auto s joy).1.auto_teleop_mode_
        = (joy_callback_mode s joy).1.auto_teleop_mode_ ∧
    (joy_callback_auto s joy).1.publish_twist_stamped_ = s.publish_twist_stamped_ ∧
    (joy_callback_auto s joy).1.speed_up_down_linear_x_ = s.speed_up_down_linear_x_ ∧
    (joy_callback_auto s joy).1.speed_up_down_angular_z_
        = (joy_callback_mode s joy).1.speed_up_down_angular_z_ := by
  unfold joy_callback_auto
  simp only [autoTeleop_eq]
  split_ifs <;>
    simp [joy_callback_mode_publish, joy_callback_mode_trim_linear]

/-- The messages of the auto step: those of the mode step, then the auto command when
B is released in auto mode. -/
theorem joy_callback_auto_out (s : TeleopTwistJoyComfy) (joy : Joy) :
    (joy_callback_auto s joy).2 =
      (joy_callback_mode s joy).2 ++
      (if !joy.button B && (joy_callback_mode s joy).1.auto_teleop_mode_ then
        [(calcTwist (joy_callback_mode s joy).1 joy s.publish_twist_stamped_).2]
      else []) := by
  unfold joy_callback_auto
  simp only [autoTeleop_eq, joy_callback_mode_publish]
  split_ifs <;> simp

/-- The mode flag after `joy_callback` is the one the mode step left. -/
theorem joy_callback_auto_teleop_mode (s : TeleopTwistJoyComfy) (joy : Joy) :
    (joy_callback s joy).1.auto_teleop_mode_
      = (joy_callback_mode s joy).1.auto_teleop_mode_ := by
  unfold joy_callback
  simp only [manualTeleop_eq, manageButtonsState]
  split_ifs <;> simp [(joy_callback_auto_fields s joy).1]

/-- The messages of `joy_callback`, step by step. -/
theorem joy_callback_out (s : TeleopTwistJoyComfy) (joy : Joy) :
    (joy_callback s joy).2 =
      (joy_callback_auto s joy).2 ++
      (if joy.button X then
        [(calcTwist (joy_callback_auto s joy).1 joy s.publish_twist_stamped_).2]
      else []) ++
      (if !joy.button B && !joy.button X && !(joy_callback_mode s joy).1.auto_teleop_mode_
        then stopVelocity s else []) := by
  have hf := joy_callback_auto_fields s joy
  unfold joy_callback
  simp only [manualTeleop_eq, hf.2.1]
  cases joy.button X <;> cases joy.button Y <;> cases joy.button B <;>
    cases h : (joy_callback_mode s joy).1.auto_teleop_mode_ <;>
    simp [hf.1, h, stopVelocity, hf.2.1]

/-! ## How many commands one snapshot publishes -/

/-- C3, counterexample. In auto mode with X held and B released, one snapshot publishes
two commands: the one of the auto step and the one of the X step. -/
theorem joy_callback_two_commands :
    (joy_callback { getParam with auto_teleop_mode_ := true }
      (mkJoy false false true false false false 0 0 0 0)).2
      = [{ frame_id := some "teleop_twist_joy_comfy", linear_x := 1 / 2, angular_z := 0 },
         { frame_id := some "teleop_twist_joy_comfy", linear_x := 1 / 2, angular_z := 0 }] ∧
    ¬ (joy_callback { getParam with auto_teleop_mode_ := true }
      (mkJoy false false true false false false 0 0 0 0)).2.length ≤ 1 := by
  have h : (joy_callback { getParam with auto_teleop_mode_ := true }
      (mkJoy false false true false false false 0 0 0 0)).2
      = [{ frame_id := some "teleop_twist_joy_comfy", linear_x := 1 / 2, angular_z := 0 },
         { frame_id := some "teleop_twist_joy_comfy", linear_x := 1 / 2, angular_z := 0 }] := by
    rw [joy_callback_out, joy_callback_auto_out, joy_callback_mode_out]
    simp only [joy_callback_mode_auto, mkJoy_button_B, mkJoy_button_X]
    simp [calcTwist, (joy_callback_auto_fields _ _).1, joy_callback_mode_auto, getParam,
      joy_callback_auto, joy_callback_mode, autoTeleop_eq, clamp]
    norm_num
  rw [h]
  exact ⟨rfl, by simp⟩

/-- C3, amended. One snapshot publishes at most two commands, and it publishes two
exactly when X is held in auto mode and B is released or its latch is false; in every
other case it publishes zero or one. -/
theorem joy_callback_at_most_two (s : TeleopTwistJoyComfy) (joy : Joy) :
    (joy_callback s joy).2.length ≤ 2 ∧
    ((joy_callback s joy).2.length = 2 ↔
      joy.button X = true ∧ s.auto_teleop_mode_ = true ∧
        (joy.button B = false ∨ s.button_b_state_ = false)) := by
  rw [joy_callback_out, joy_callback_auto_out, joy_callback_mode_out]
  simp only [joy_callback_mode_auto, stopVelocity_eq]
  cases joy.button B <;> cases joy.button X <;> cases s.auto_teleop_mode_ <;>
    cases s.button_b_state_ <;> simp

/-! ## The command of the X step -/

/-- The speeds of the message `calcTwist` builds: the auto branch when the mode flag is
true, the manual branch when it is false. -/
theorem calcTwist_speeds (s : TeleopTwistJoyComfy) (joy : Joy) (stamped : Bool) :
    ((calcTwist s joy stamped).2.linear_x, (calcTwist s joy stamped).2.angular_z) =
      if s.auto_teleop_mode_ then autoBranch s joy else manualBranch s joy := by
  rw [calcTwist_linear_x, calcTwist_angular_z]
  cases s.auto_teleop_mode_ <;> simp [autoBranch, manualBranch]

/-- C4, counterexample. In auto mode with X held, B released, axes[1] = 0.6 and the
default parameters, the X step publishes linear = 0.5, the auto-branch value, while the
manual branch gives 0.3. -/
theorem manualTeleop_in_auto_mode :
    (mkJoy false false true false false false 0 (3 / 5) 0 0).button X = true ∧
    (manualTeleop
      (joy_callback_auto { getParam with auto_teleop_mode_ := true }
        (mkJoy false false true false false false 0 (3 / 5) 0 0)).1
      (mkJoy false false true false false false 0 (3 / 5) 0 0)).2
      = [{ frame_id := some "teleop_twist_joy_comfy", linear_x := 1 / 2, angular_z := 0 }] ∧
    (manualBranch
      (joy_callback_auto { getParam with auto_teleop_mode_ := true }
        (mkJoy false false true false false false 0 (3 / 5) 0 0)).1
      (mkJoy false false true false false false 0 (3 / 5) 0 0)).1 = 3 / 10 := by
  refine ⟨by simp, ?_, ?_⟩
  · simp [manualTeleop_eq, calcTwist, joy_callback_auto, joy_callback_mode, autoTeleop_eq,
      getParam, clamp]
    norm_num
  · simp [manualBranch, effLinear, joy_callback_auto, joy_callback_mode, autoTeleop_eq,
      getParam, clamp]
    norm_num

/-- C4, amended. With X held, the X step publishes exactly one command, the one
`calcTwist` computes under the mode flag as the mode step left it: the manual-branch
command when that flag is false and the auto-branch command when it is true; the flag
at that point is the old one, toggled when B has a rising edge. -/
theorem manualTeleop_follows_mode (s : TeleopTwistJoyComfy) (joy : Joy)
    (hX : joy.button X = true) :
    ∃ m : TwistMsg,
      (manualTeleop (joy_callback_auto s joy).1 joy).2 = [m] ∧
      (joy_callback s joy).2 = (joy_callback_auto s joy).2 ++ [m] ∧
      ((joy_callback_auto s joy).1.auto_teleop_mode_ = false →
        (m.linear_x, m.angular_z) = manualBranch (joy_callback_auto s joy).1 joy) ∧
      ((joy_callback_auto s joy).1.auto_teleop_mode_ = true →
        (m.linear_x, m.angular_z) = autoBranch (joy_callback_auto s joy).1 joy) ∧
      (joy_callback_auto s joy).1.auto_teleop_mode_ =
        (if joy.button B && !s.button_b_state_ then !s.auto_teleop_mode_
         else s.auto_teleop_mode_) := by
  refine ⟨(calcTwist (joy_callback_auto s joy).1 joy s.publish_twist_stamped_).2, ?_, ?_,
    ?_, ?_, ?_⟩
  · rw [manualTeleop_eq, (joy_callback_auto_fields s joy).2.1]
  · rw [joy_callback_out]
    simp [hX]
  · intro h
    rw [calcTwist_speeds, h]
    simp
  · intro h
    rw [calcTwist_speeds, h]
    simp
  · rw [(joy_callback_auto_fields s joy).1, joy_callback_mode_auto]

/-- C4, witness: manual mode, X held, axes[1] = 0.6. -/
theorem manualTeleop_follows_mode_witness :
    ∃ m : TwistMsg,
      (joy_callback getParam (mkJoy false false true false false false 0 (3 / 5) 0 0)).2
        = (joy_callback_auto getParam
            (mkJoy false false true false false false 0 (3 / 5) 0 0)).2 ++ [m] ∧
      (m.linear_x, m.angular_z) =
        manualBranch
          (joy_callback_auto getParam
            (mkJoy false false true false false false 0 (3 / 5) 0 0)).1
          (mkJoy false false true false false false 0 (3 / 5) 0 0) := by
  obtain ⟨m, _, h2, h3, _, h5⟩ := manualTeleop_follows_mode getParam
    (mkJoy false false true false false false 0 (3 / 5) 0 0) (by simp)
  refine ⟨m, h2, h3 ?_⟩
  rw [h5]
  simp [getParam]

/-! ## The state after one snapshot -/

/-- The steps before the X step leave the trim latches alone. -/
theorem joy_callback_auto_latches (s : TeleopTwistJoyComfy) (joy : Joy) :
    (joy_callback_auto s joy).1.button_lb_state_ = s.button_lb_state_ ∧
    (joy_callback_auto s joy).1.button_rb_state_ = s.button_rb_state_ := by
  cases hA : joy.button A <;> cases hB : joy.button B <;>
    cases h1 : s.auto_teleop_mode_ <;> cases h2 : s.button_b_state_ <;>
    simp [joy_callback_auto, joy_callback_mode, autoTeleopStart, autoTeleopEnd,
      resetAllSpeedUpDownLocks, autoTeleop_eq, hA, hB, h1, h2]

/-- The angular trim after `joy_callback`: only the trim step of button A writes it. -/
theorem joy_callback_trim_angular (s : TeleopTwistJoyComfy) (joy : Joy) :
    (joy_callback s joy).1.speed_up_down_angular_z_ =
      if joy.button A then (changeAngularVelocity s joy).speed_up_down_angular_z_
      else s.speed_up_down_angular_z_ := by
  have hf := joy_callback_auto_fields s joy
  rw [joy_callback_mode_trim_angular] at hf
  unfold joy_callback
  simp only [manualTeleop_eq, manageButtonsState]
  cases joy.button X <;> cases joy.button Y <;> simp [hf.2.2.2]

/-- The linear trim after `joy_callback`: only the trim step of button Y writes it, on
the node as the X step left it. -/
theorem joy_callback_trim_linear (s : TeleopTwistJoyComfy) (joy : Joy) :
    (joy_callback s joy).1.speed_up_down_linear_x_ =
      if joy.button Y then
        (changeLinearVelocity
          (if joy.button X then manageSpeedUpDownLocks (joy_callback_auto s joy).1
           else (joy_callback_auto s joy).1) joy).speed_up_down_linear_x_
      else s.speed_up_down_linear_x_ := by
  have hf := joy_callback_auto_fields s joy
  unfold joy_callback
  simp only [manualTeleop_eq, manageButtonsState]
  cases joy.button X <;> cases joy.button Y <;> simp [hf.2.2.1]

/-- Without a rising edge of a trim button the linear trim step changes nothing. -/
theorem changeLinearVelocity_no_edge (s : TeleopTwistJoyComfy) (joy : Joy)
    (h4 : (joy.button 4 && !s.button_lb_state_) = false)
    (h5 : (joy.button 5 && !s.button_rb_state_) = false) :
    changeLinearVelocity s joy = s := by
  have e1 : (if (!s.speed_down_linear_x_lock_) = true then
      if (joy.button 4 && !s.button_lb_state_) = true then
        { s with speed_up_down_linear_x_ :=
            s.speed_up_down_linear_x_ - s.speed_up_down_linear_x_original_ }
      else s
    else s) = s := by
    rw [h4]; simp
  unfold changeLinearVelocity
  simp only [e1, h5]
  simp

/-- Without a rising edge of a trim button the angular trim step changes nothing. -/
theorem changeAngularVelocity_no_edge (s : TeleopTwistJoyComfy) (joy : Joy)
    (h4 : (joy.button 4 && !s.button_lb_state_) = false)
    (h5 : (joy.button 5 && !s.button_rb_state_) = false) :
    changeAngularVelocity s joy = s := by
  have e1 : (if (!s.speed_down_angular_z_lock_) = true then
      if (joy.button 4 && !s.button_lb_state_) = true then
        { s with speed_up_down_angular_z_ :=
            s.speed_up_down_angular_z_ - s.speed_up_down_angular_z_original_ }
      else s
    else s) = s := by
    rw [h4]; simp
  unfold changeAngularVelocity
  simp only [e1, h5]
  simp

/-! ## Leaving auto mode -/

/-- C5, counterexample. Auto mode, B-latch false, linear trim 1 (effective value 1.5
above the maximum 1); the snapshot holds A, B, X and right-trim. Afterwards the angular
trim has moved from 0 to 0.1 and the linear increment-lock is true. -/
theorem exit_auto_changes_trim_and_lock :
    ({ getParam with auto_teleop_mode_ := true, speed_up_down_linear_x_ := 1 }
      : TeleopTwistJoyComfy).speed_up_down_angular_z_ = 0 ∧
    (joy_callback { getParam with auto_teleop_mode_ := true, speed_up_down_linear_x_ := 1 }
      (mkJoy true true true false false true 0 0 0 0)).1.speed_up_down_angular_z_ = 1 / 10 ∧
    (joy_callback { getParam with auto_teleop_mode_ := true, speed_up_down_linear_x_ := 1 }
      (mkJoy true true true false false true 0 0 0 0)).1.speed_up_linear_x_lock_ = true := by
  refine ⟨rfl, ?_, ?_⟩
  · rw [joy_callback_trim_angular]
    simp [changeAngularVelocity, getParam]
  · simp [joy_callback, joy_callback_auto, joy_callback_mode, autoTeleopEnd, manualTeleop_eq,
      manageButtonsState, resetAllSpeedUpDownLocks, manageSpeedUpDownLocks, getParam]

/-- C5, amended. From auto mode with the B-latch false, a snapshot with B held ends
with the mode flag false and publishes the zero command first; the four locks are false
afterwards when X is not held; the angular trim is unchanged unless A is held with a
rising edge of a trim button, and the linear trim is unchanged unless Y is held with a
rising edge of a trim button. -/
theorem exit_auto_mode (s : TeleopTwistJoyComfy) (joy : Joy)
    (hm : s.auto_teleop_mode_ = true) (hb : s.button_b_state_ = false)
    (hB : joy.button B = true) :
    (joy_callback s joy).1.auto_teleop_mode_ = false ∧
    (∃ rest, (joy_callback s joy).2 =
      { frame_id := if s.publish_twist_stamped_ then some "" else none,
        linear_x := 0, angular_z := 0 } :: rest) ∧
    (joy.button X = false →
      (joy_callback s joy).1.speed_down_linear_x_lock_ = false ∧
      (joy_callback s joy).1.speed_up_linear_x_lock_ = false ∧
      (joy_callback s joy).1.speed_down_angular_z_lock_ = false ∧
      (joy_callback s joy).1.speed_up_angular_z_lock_ = false) ∧
    (joy.button A = false ∨
      ((joy.button 4 && !s.button_lb_state_) = false ∧
       (joy.button 5 && !s.button_rb_state_) = false) →
      (joy_callback s joy).1.speed_up_down_angular_z_ = s.speed_up_down_angular_z_) ∧
    (joy.button Y = false ∨
      ((joy.button 4 && !s.button_lb_state_) = false ∧
       (joy.button 5 && !s.button_rb_state_) = false) →
      (joy_callback s joy).1.speed_up_down_linear_x_ = s.speed_up_down_linear_x_) := by
  refine ⟨?_, ?_, ?_, ?_, ?_⟩
  · rw [joy_callback_auto_teleop_mode, joy_callback_mode_auto]
    simp [hm, hb, hB]
  · rw [joy_callback_out, joy_callback_auto_out, joy_callback_mode_out]
    simp [hm, hb, hB, stopVelocity_eq]
  · intro hX
    cases hA : joy.button A <;> cases hY : joy.button Y <;>
      simp [joy_callback, joy_callback_auto, joy_callback_mode, autoTeleopEnd,
        manageButtonsState, resetAllSpeedUpDownLocks, hm, hb, hB, hX, hA, hY]
  · intro h
    rw [joy_callback_trim_angular]
    rcases h with h | ⟨h4, h5⟩
    · simp [h]
    · rw [changeAngularVelocity_no_edge s joy h4 h5]
      simp
  · intro h
    rw [joy_callback_trim_linear]
    rcases h with h | ⟨h4, h5⟩
    · simp [h]
    · have hl := joy_callback_auto_latches s joy
      have hf := joy_callback_auto_fields s joy
      rw [changeLinearVelocity_no_edge]
      · cases joy.button X <;> cases joy.button Y <;> simp [hf.2.2.1]
      · cases joy.button X <;> simp [hl.1, h4]
      · cases joy.button X <;> simp [hl.2, h5]

/-- C5, witness: default parameters in auto mode, only B held. -/
theorem exit_auto_mode_witness :
    (joy_callback { getParam with auto_teleop_mode_ := true }
      (mkJoy false true false false false false 0 0 0 0)).1.auto_teleop_mode_ = false ∧
    (joy_callback { getParam with auto_teleop_mode_ := true }
      (mkJoy false true false false false false 0 0 0 0)).1.speed_up_linear_x_lock_
      = false := by
  have h := exit_auto_mode { getParam with auto_teleop_mode_ := true }
    (mkJoy false true false false false false 0 0 0 0) rfl rfl (by simp)
  exact ⟨h.1, (h.2.2.1 (by simp)).2.1⟩

/-! ## The mode flag -/

theorem run_nil (s : TeleopTwistJoyComfy) : run s [] = s := rfl

theorem run_cons (s : TeleopTwistJoyComfy) (joy : Joy) (joys : List Joy) :
    run s (joy :: joys) = run (joy_callback s joy).1 joys := rfl

/-- The B-latch after `joy_callback` is the state of button B in the snapshot. -/
theorem joy_callback_button_b_state (s : TeleopTwistJoyComfy) (joy : Joy) :
    (joy_callback s joy).1.button_b_state_ = joy.button B := by
  simp [joy_callback, manageButtonsState]

/-- `joy_callback` never changes the publisher choice. -/
theorem joy_callback_publish (s : TeleopTwistJoyComfy) (joy : Joy) :
    (joy_callback s joy).1.publish_twist_stamped_ = s.publish_twist_stamped_ := by
  have hf := joy_callback_auto_fields s joy
  unfold joy_callback
  simp only [manualTeleop_eq, manageButtonsState]
  cases joy.button X <;> cases joy.button Y <;> simp [hf.2.1]

/-- While B stays held after its rising edge was seen, auto mode stays on. -/
theorem run_held (joys : List Joy) (hB : ∀ j ∈ joys, j.button B = true) :
    ∀ s : TeleopTwistJoyComfy, s.auto_teleop_mode_ = true → s.button_b_state_ = true →
      (run s joys).auto_teleop_mode_ = true ∧ (run s joys).button_b_state_ = true := by
  induction joys with
  | nil => intro s h1 h2; exact ⟨h1, h2⟩
  | cons j js ih =>
    intro s h1 h2
    rw [run_cons]
    have hj : j.button B = true := hB j (List.mem_cons_self j js)
    apply ih (fun x hx => hB x (List.mem_cons_of_mem j hx))
    · rw [joy_callback_auto_teleop_mode, joy_callback_mode_auto]
      simp [h1, h2]
    · rw [joy_callback_button_b_state, hj]

/-- C6. From manual mode with the B-latch false, along any non-empty sequence of
snapshots that all hold B, the mode flag is true after the first snapshot and after
every later one: the rising edge switches to auto once and holding B never toggles the
mode again. -/
theorem hold_b_enters_auto_once (s : TeleopTwistJoyComfy) (joys : List Joy)
    (hm : s.auto_teleop_mode_ = false) (hb : s.button_b_state_ = false)
    (hne : joys ≠ []) (hB : ∀ j ∈ joys, j.button B = true) :
    ∀ k : Nat, 0 < k → k ≤ joys.length →
      (run s (joys.take k)).auto_teleop_mode_ = true := by
  intro k hk _
  cases joys with
  | nil => exact absurd rfl hne
  | cons j js =>
    obtain ⟨n, rfl⟩ : ∃ n, k = n + 1 := ⟨k - 1, by omega⟩
    rw [List.take_succ_cons, run_cons]
    have hj : j.button B = true := hB j (List.mem_cons_self j js)
    refine (run_held (js.take n) ?_ _ ?_ ?_).1
    · intro x hx
      exact hB x (List.mem_cons_of_mem j (List.mem_of_mem_take hx))
    · rw [joy_callback_auto_teleop_mode, joy_callback_mode_auto]
      simp [hm, hb, hj]
    · rw [joy_callback_button_b_state, hj]

/-- C6, witness: three snapshots holding B, from the initial node. -/
theorem hold_b_enters_auto_once_witness :
    (run getParam
      [mkJoy false true false false false false 0 0 0 0,
       mkJoy false true false false false false 0 0 0 0,
       mkJoy false true false false false false 0 0 0 0]).auto_teleop_mode_ = true ∧
    (run getParam [mkJoy false true false false false false 0 0 0 0]).auto_teleop_mode_
      = true :=
  ⟨hold_b_enters_auto_once getParam
      [mkJoy false true false false false false 0 0 0 0,
       mkJoy false true false false false false 0 0 0 0,
       mkJoy false true false false false false 0 0 0 0]
      rfl rfl (by simp) (by simp) 3 (by decide) (by simp),
   hold_b_enters_auto_once getParam
      [mkJoy false true false false false false 0 0 0 0,
       mkJoy false true false false false false 0 0 0 0,
       mkJoy false true false false false false 0 0 0 0]
      rfl rfl (by simp) (by simp) 1 (by decide) (by simp)⟩

/-- C9. The mode flag changes only on a rising edge of B: when B is released or the
B-latch is already true the flag after `joy_callback` is the flag before, and when B is
held with the B-latch false it is the negation of the flag before. -/
theorem mode_flag_toggles_on_edge (s : TeleopTwistJoyComfy) (joy : Joy) :
    ((joy.button B = false ∨ s.button_b_state_ = true) →
      (joy_callback s joy).1.auto_teleop_mode_ = s.auto_teleop_mode_) ∧
    ((joy.button B = true ∧ s.button_b_state_ = false) →
      (joy_callback s joy).1.auto_teleop_mode_ = !s.auto_teleop_mode_) := by
  rw [joy_callback_auto_teleop_mode, joy_callback_mode_auto]
  constructor
  · rintro (h | h) <;> simp [h]
  · rintro ⟨h1, h2⟩
    simp [h1, h2]

/-- C9, witness: a rising edge of B from the initial node, then B still held. -/
theorem mode_flag_toggles_on_edge_witness :
    (joy_callback getParam
      (mkJoy false true false false false false 0 0 0 0)).1.auto_teleop_mode_ = true ∧
    (joy_callback { getParam with auto_teleop_mode_ := true, button_b_state_ := true }
      (mkJoy false true false false false false 0 0 0 0)).1.auto_teleop_mode_ = true :=
  ⟨(mode_flag_toggles_on_edge getParam
      (mkJoy false true false false false false 0 0 0 0)).2 ⟨by simp, rfl⟩,
   (mode_flag_toggles_on_edge
      { getParam with auto_teleop_mode_ := true, button_b_state_ := true }
      (mkJoy false true false false false false 0 0 0 0)).1 (Or.inr rfl)⟩

/-! ## The zero command -/

/-- In manual mode with B and X released, one snapshot publishes the zero command and
nothing else, and stays in manual mode. -/
theorem joy_callback_released (s : TeleopTwistJoyComfy) (joy : Joy)
    (hm : s.auto_teleop_mode_ = false) (hB : joy.button B = false)
    (hX : joy.button X = false) :
    (joy_callback s joy).2 =
      [{ frame_id := if s.publish_twist_stamped_ then some "" else none,
         linear_x := 0, angular_z := 0 }] ∧
    (joy_callback s joy).1.auto_teleop_mode_ = false := by
  constructor
  · rw [joy_callback_out, joy_callback_auto_out, joy_callback_mode_out]
    simp [joy_callback_mode_auto, hm, hB, hX, stopVelocity_eq]
  · rw [joy_callback_auto_teleop_mode, joy_callback_mode_auto]
    simp [hm, hB]

/-- Snapshots with B and X released keep the node in manual mode and keep the
publisher choice. -/
theorem run_released (joys : List Joy)
    (h : ∀ j ∈ joys, j.button B = false ∧ j.button X = false) :
    ∀ s : TeleopTwistJoyComfy, s.auto_teleop_mode_ = false →
      (run s joys).auto_teleop_mode_ = false ∧
      (run s joys).publish_twist_stamped_ = s.publish_twist_stamped_ := by
  induction joys with
  | nil => intro s hm; exact ⟨hm, rfl⟩
  | cons j js ih =>
    intro s hm
    rw [run_cons]
    have hj := h j (List.mem_cons_self j js)
    have h1 := ih (fun x hx => h x (List.mem_cons_of_mem j hx)) (joy_callback s j).1
      (joy_callback_released s j hm hj.1 hj.2).2
    exact ⟨h1.1, by rw [h1.2, joy_callback_publish]⟩

/-- C7. In manual mode, a snapshot with B and X both released (any axes, any state of
A, Y and the trim buttons) publishes exactly one command, with linear = 0 and
angular = 0, and the node stays in manual mode; hence after any number of such
snapshots a further one again publishes exactly the zero command. -/
theorem zero_command_when_released (s : TeleopTwistJoyComfy) (joy : Joy)
    (hm : s.auto_teleop_mode_ = false) (hB : joy.button B = false)
    (hX : joy.button X = false) :
    (∃ m : TwistMsg, (joy_callback s joy).2 = [m] ∧ m.linear_x = 0 ∧ m.angular_z = 0) ∧
    (joy_callback s joy).1.auto_teleop_mode_ = false ∧
    (∀ joys : List Joy, (∀ j ∈ joys, j.button B = false ∧ j.button X = false) →
      ∃ m : TwistMsg, (joy_callback (run s joys) joy).2 = [m] ∧
        m.linear_x = 0 ∧ m.angular_z = 0) := by
  refine ⟨⟨_, (joy_callback_released s joy hm hB hX).1, rfl, rfl⟩,
    (joy_callback_released s joy hm hB hX).2, ?_⟩
  intro joys h
  exact ⟨_, (joy_callback_released (run s joys) joy (run_released joys h s hm).1 hB hX).1,
    rfl, rfl⟩

/-- C7, witness: the initial node, Y and right-trim held, both sticks pushed. -/
theorem zero_command_when_released_witness :
    ∃ m : TwistMsg,
      (joy_callback getParam (mkJoy false false false true false true 1 1 0 1)).2 = [m] ∧
      m.linear_x = 0 ∧ m.angular_z = 0 :=
  (zero_command_when_released getParam
    (mkJoy false false false true false true 1 1 0 1) rfl (by simp) (by simp)).1

/-! ## Trim refusal -/

/-- The trim after `changeLinearVelocity`, in closed form. -/
theorem changeLinearVelocity_trim (s : TeleopTwistJoyComfy) (joy : Joy) :
    (changeLinearVelocity s joy).speed_up_down_linear_x_ =
      (if !s.speed_down_linear_x_lock_ && (joy.button 4 && !s.button_lb_state_) then
        s.speed_up_down_linear_x_ - s.speed_up_down_linear_x_original_
       else s.speed_up_down_linear_x_) +
      (if !s.speed_up_linear_x_lock_ && (joy.button 5 && !s.button_rb_state_) then
        s.speed_up_down_linear_x_original_
       else 0) := by
  cases h1 : s.speed_down_linear_x_lock_ <;> cases h2 : s.speed_up_linear_x_lock_ <;>
    cases h3 : (joy.button 4 && !s.button_lb_state_) <;>
    cases h4 : (joy.button 5 && !s.button_rb_state_) <;>
    simp [changeLinearVelocity, h1, h2, h3, h4]

/-- The trim after `changeAngularVelocity`, in closed form. -/
theorem changeAngularVelocity_trim (s : TeleopTwistJoyComfy) (joy : Joy) :
    (changeAngularVelocity s joy).speed_up_down_angular_z_ =
      (if !s.speed_down_angular_z_lock_ && (joy.button 4 && !s.button_lb_state_) then
        s.speed_up_down_angular_z_ - s.speed_up_down_angular_z_original_
       else s.speed_up_down_angular_z_) +
      (if !s.speed_up_angular_z_lock_ && (joy.button 5 && !s.button_rb_state_) then
        s.speed_up_down_angular_z_original_
       else 0) := by
  cases h1 : s.speed_down_angular_z_lock_ <;> cases h2 : s.speed_up_angular_z_lock_ <;>
    cases h3 : (joy.button 4 && !s.button_lb_state_) <;>
    cases h4 : (joy.button 5 && !s.button_rb_state_) <;>
    simp [changeAngularVelocity, h1, h2, h3, h4]

/-- C8. Trim refusal, for the linear and the angular trim action: under a true
decrement-lock the trim afterwards is the old trim or the old trim plus one step (the
step is never subtracted); under a true increment-lock it is the old trim or the old
trim minus one step (the step is never added); under both locks it is unchanged,
whatever the trim buttons and latches are. -/
theorem trim_refused_when_locked (s : TeleopTwistJoyComfy) (joy : Joy) :
    (s.speed_down_linear_x_lock_ = true →
      (changeLinearVelocity s joy).speed_up_down_linear_x_ = s.speed_up_down_linear_x_ ∨
      (changeLinearVelocity s joy).speed_up_down_linear_x_ =
        s.speed_up_down_linear_x_ + s.speed_up_down_linear_x_original_) ∧
    (s.speed_up_linear_x_lock_ = true →
      (changeLinearVelocity s joy).speed_up_down_linear_x_ = s.speed_up_down_linear_x_ ∨
      (changeLinearVelocity s joy).speed_up_down_linear_x_ =
        s.speed_up_down_linear_x_ - s.speed_up_down_linear_x_original_) ∧
    (s.speed_down_linear_x_lock_ = true → s.speed_up_linear_x_lock_ = true →
      (changeLinearVelocity s joy).speed_up_down_linear_x_ = s.speed_up_down_linear_x_) ∧
    (s.speed_down_angular_z_lock_ = true →
      (changeAngularVelocity s joy).speed_up_down_angular_z_ = s.speed_up_down_angular_z_ ∨
      (changeAngularVelocity s joy).speed_up_down_angular_z_ =
        s.speed_up_down_angular_z_ + s.speed_up_down_angular_z_original_) ∧
    (s.speed_up_angular_z_lock_ = true →
      (changeAngularVelocity s joy).speed_up_down_angular_z_ = s.speed_up_down_angular_z_ ∨
      (changeAngularVelocity s joy).speed_up_down_angular_z_ =
        s.speed_up_down_angular_z_ - s.speed_up_down_angular_z_original_) ∧
    (s.speed_down_angular_z_lock_ = true → s.speed_up_angular_z_lock_ = true →
      (changeAngularVelocity s joy).speed_up_down_angular_z_
        = s.speed_up_down_angular_z_) := by
  rw [changeLinearVelocity_trim, changeAngularVelocity_trim]
  refine ⟨?_, ?_, ?_, ?_, ?_, ?_⟩
  · intro h
    cases s.speed_up_linear_x_lock_ <;> cases (joy.button 5 && !s.button_rb_state_) <;>
      simp [h]
  · intro h
    cases s.speed_down_linear_x_lock_ <;> cases (joy.button 4 && !s.button_lb_state_) <;>
      simp [h]
  · intro h1 h2
    simp [h1, h2]
  · intro h
    cases s.speed_up_angular_z_lock_ <;> cases (joy.button 5 && !s.button_rb_state_) <;>
      simp [h]
  · intro h
    cases s.speed_down_angular_z_lock_ <;> cases (joy.button 4 && !s.button_lb_state_) <;>
      simp [h]
  · intro h1 h2
    simp [h1, h2]

/-- C8, witness: with both linear locks true a rising edge of both trim buttons leaves
the linear trim at 1, likewise the angular trim at 0; with only the linear
decrement-lock true the trim 0 stays 0 or becomes 0 + 0.1. -/
theorem trim_refused_when_locked_witness :
    (changeLinearVelocity
      { getParam with speed_up_down_linear_x_ := 1, speed_down_linear_x_lock_ := true,
                      speed_up_linear_x_lock_ := true }
      (mkJoy false false false true true true 0 0 0 0)).speed_up_down_linear_x_ = 1 ∧
    (changeAngularVelocity
      { getParam with speed_down_angular_z_lock_ := true, speed_up_angular_z_lock_ := true }
      (mkJoy true false false false true true 0 0 0 0)).speed_up_down_angular_z_ = 0 ∧
    ((changeLinearVelocity { getParam with speed_down_linear_x_lock_ := true }
      (mkJoy false false false true true true 0 0 0 0)).speed_up_down_linear_x_ = 0 ∨
     (changeLinearVelocity { getParam with speed_down_linear_x_lock_ := true }
      (mkJoy false false false true true true 0 0 0 0)).speed_up_down_linear_x_
        = 0 + 1 / 10) :=
  ⟨(trim_refused_when_locked
      { getParam with speed_up_down_linear_x_ := 1, speed_down_linear_x_lock_ := true,
                      speed_up_linear_x_lock_ := true }
      (mkJoy false false false true true true 0 0 0 0)).2.2.1 rfl rfl,
   (trim_refused_when_locked
      { getParam with speed_down_angular_z_lock_ := true, speed_up_angular_z_lock_ := true }
      (mkJoy true false false false true true 0 0 0 0)).2.2.2.2.2 rfl rfl,
   (trim_refused_when_locked { getParam with speed_down_linear_x_lock_ := true }
      (mkJoy false false false true true true 0 0 0 0)).1 rfl⟩

/-! ## Lock consistency -/

/-- C10. Immediately after `calcTwist` returns, in either mode, each lock agrees with
the trims of that moment: lockDecLinear iff effLinear < 0, lockIncLinear iff
effLinear > maxLinear, lockDecAngular iff effAngular < 0, lockIncAngular iff
effAngular > maxAngular. -/
theorem locks_consistent_after_calcTwist (s : TeleopTwistJoyComfy) (joy : Joy)
    (stamped : Bool) :
    ((calcTwist s joy stamped).1.speed_down_linear_x_lock_ = true ↔
      effLinear (calcTwist s joy stamped).1 < 0) ∧
    ((calcTwist s joy stamped).1.speed_up_linear_x_lock_ = true ↔
      effLinear (calcTwist s joy stamped).1 > (calcTwist s joy stamped).1.linear_x_max_) ∧
    ((calcTwist s joy stamped).1.speed_down_angular_z_lock_ = true ↔
      effAngular (calcTwist s joy stamped).1 < 0) ∧
    ((calcTwist s joy stamped).1.speed_up_angular_z_lock_ = true ↔
      effAngular (calcTwist s joy stamped).1
        > (calcTwist s joy stamped).1.angular_z_max_) := by
  rw [calcTwist_fst]
  simp [manageSpeedUpDownLocks, effLinear, effAngular]

/-! ## Trims change on rising edges only -/

/-- The left-trim latch after `joy_callback` is the state of button 4 in the snapshot. -/
theorem joy_callback_button_lb_state (s : TeleopTwistJoyComfy) (joy : Joy) :
    (joy_callback s joy).1.button_lb_state_ = joy.button 4 := by
  simp [joy_callback, manageButtonsState]

/-- The right-trim latch after `joy_callback` is the state of button 5 in the snapshot. -/
theorem joy_callback_button_rb_state (s : TeleopTwistJoyComfy) (joy : Joy) :
    (joy_callback s joy).1.button_rb_state_ = joy.button 5 := by
  simp [joy_callback, manageButtonsState]

/-- The linear trim survives a snapshot in which Y is released or no trim button has a
rising edge. -/
theorem joy_callback_trim_linear_kept (s : TeleopTwistJoyComfy) (joy : Joy)
    (h : joy.button Y = false ∨
      ((joy.button 4 && !s.button_lb_state_) = false ∧
       (joy.button 5 && !s.button_rb_state_) = false)) :
    (joy_callback s joy).1.speed_up_down_linear_x_ = s.speed_up_down_linear_x_ := by
  rw [joy_callback_trim_linear]
  rcases h with h | ⟨h4, h5⟩
  · simp [h]
  · have hl := joy_callback_auto_latches s joy
    have hf := joy_callback_auto_fields s joy
    rw [changeLinearVelocity_no_edge]
    · cases joy.button X <;> cases joy.button Y <;> simp [hf.2.2.1]
    · cases joy.button X <;> simp [hl.1, h4]
    · cases joy.button X <;> simp [hl.2, h5]

/-- The angular trim survives a snapshot in which A is released or no trim button has a
rising edge. -/
theorem joy_callback_trim_angular_kept (s : TeleopTwistJoyComfy) (joy : Joy)
    (h : joy.button A = false ∨
      ((joy.button 4 && !s.button_lb_state_) = false ∧
       (joy.button 5 && !s.button_rb_state_) = false)) :
    (joy_callback s joy).1.speed_up_down_angular_z_ = s.speed_up_down_angular_z_ := by
  rw [joy_callback_trim_angular]
  rcases h with h | ⟨h4, h5⟩
  · simp [h]
  · rw [changeAngularVelocity_no_edge s joy h4 h5]
    simp

/-- C11. Trim is rising-edge only: when every trim button (4, 5) held in the second
snapshot was already held in the first, processing the second directly after the first
leaves the linear and the angular trim as they were after the first, whatever A, Y and
the locks are. -/
theorem held_trim_button_steps_once (s : TeleopTwistJoyComfy) (j1 j2 : Joy)
    (h4 : j2.button 4 = true → j1.button 4 = true)
    (h5 : j2.button 5 = true → j1.button 5 = true) :
    (joy_callback (joy_callback s j1).1 j2).1.speed_up_down_linear_x_
      = (joy_callback s j1).1.speed_up_down_linear_x_ ∧
    (joy_callback (joy_callback s j1).1 j2).1.speed_up_down_angular_z_
      = (joy_callback s j1).1.speed_up_down_angular_z_ := by
  have e4 : (j2.button 4 && !(joy_callback s j1).1.button_lb_state_) = false := by
    rw [joy_callback_button_lb_state]
    cases h : j2.button 4
    · simp
    · simp [h4 h]
  have e5 : (j2.button 5 && !(joy_callback s j1).1.button_rb_state_) = false := by
    rw [joy_callback_button_rb_state]
    cases h : j2.button 5
    · simp
    · simp [h5 h]
  exact ⟨joy_callback_trim_linear_kept _ j2 (Or.inr ⟨e4, e5⟩),
    joy_callback_trim_angular_kept _ j2 (Or.inr ⟨e4, e5⟩)⟩

/-- C11, witness: Y and right-trim held in two snapshots in a row from the initial node;
the first steps the linear trim to 0.1 and the second leaves it there. -/
theorem held_trim_button_steps_once_witness :
    (joy_callback getParam
      (mkJoy false false false true false true 0 0 0 0)).1.speed_up_down_linear_x_ = 1 / 10 ∧
    (joy_callback
      (joy_callback getParam (mkJoy false false false true false true 0 0 0 0)).1
      (mkJoy false false false true false true 0 0 0 0)).1.speed_up_down_linear_x_
        = 1 / 10 := by
  have h1 : (joy_callback getParam
      (mkJoy false false false true false true 0 0 0 0)).1.speed_up_down_linear_x_
        = 1 / 10 := by
    rw [joy_callback_trim_linear, changeLinearVelocity_trim]
    simp [(joy_callback_auto_latches _ _).2, (joy_callback_auto_fields _ _).2.2.1,
      joy_callback_auto, joy_callback_mode, getParam]
  refine ⟨h1, ?_⟩
  rw [(held_trim_button_steps_once getParam
    (mkJoy false false false true false true 0 0 0 0)
    (mkJoy false false false true false true 0 0 0 0) (by simp) (by simp)).1, h1]

/-- C20. Trim frame condition: `joy_callback` leaves the linear trim unchanged unless Y
is held and a trim button has a rising edge (held now, latch false), and leaves the
angular trim unchanged unless A is held and a trim button has a rising edge; with
neither A nor Y held no trim changes. -/
theorem trims_change_only_on_guarded_edge (s : TeleopTwistJoyComfy) (joy : Joy) :
    (¬ (joy.button Y = true ∧
        ((joy.button 4 = true ∧ s.button_lb_state_ = false) ∨
         (joy.button 5 = true ∧ s.button_rb_state_ = false))) →
      (joy_callback s joy).1.speed_up_down_linear_x_ = s.speed_up_down_linear_x_) ∧
    (¬ (joy.button A = true ∧
        ((joy.button 4 = true ∧ s.button_lb_state_ = false) ∨
         (joy.button 5 = true ∧ s.button_rb_state_ = false))) →
      (joy_callback s joy).1.speed_up_down_angular_z_ = s.speed_up_down_angular_z_) ∧
    (joy.button A = false → joy.button Y = false →
      (joy_callback s joy).1.speed_up_down_linear_x_ = s.speed_up_down_linear_x_ ∧
      (joy_callback s joy).1.speed_up_down_angular_z_ = s.speed_up_down_angular_z_) := by
  refine ⟨?_, ?_, ?_⟩
  · intro h
    apply joy_callback_trim_linear_kept
    cases hY : joy.button Y
    · exact Or.inl rfl
    · right
      cases h4 : joy.button 4 <;> cases h5 : joy.button 5 <;>
        cases hl : s.button_lb_state_ <;> cases hr : s.button_rb_state_ <;>
        simp_all
  · intro h
    apply joy_callback_trim_angular_kept
    cases hA : joy.button A
    · exact Or.inl rfl
    · right
      cases h4 : joy.button 4 <;> cases h5 : joy.button 5 <;>
        cases hl : s.button_lb_state_ <;> cases hr : s.button_rb_state_ <;>
        simp_all
  · intro hA hY
    exact ⟨joy_callback_trim_linear_kept s joy (Or.inl hY),
      joy_callback_trim_angular_kept s joy (Or.inl hA)⟩

/-- C20, witness: from auto mode, a snapshot holding B, X and both trim buttons, but
neither A nor Y, ends auto mode, publishes, and leaves the trims 0.3 and -0.2 alone. -/
theorem trims_change_only_on_guarded_edge_witness :
    (joy_callback
      { getParam with auto_teleop_mode_ := true, speed_up_down_linear_x_ := 3 / 10,
                      speed_up_down_angular_z_ := -1 / 5 }
      (mkJoy false true true false true true 1 1 0 1)).1.speed_up_down_linear_x_ = 3 / 10 ∧
    (joy_callback
      { getParam with auto_teleop_mode_ := true, speed_up_down_linear_x_ := 3 / 10,
                      speed_up_down_angular_z_ := -1 / 5 }
      (mkJoy false true true false true true 1 1 0 1)).1.speed_up_down_angular_z_
        = -1 / 5 :=
  (trims_change_only_on_guarded_edge
    { getParam with auto_teleop_mode_ := true, speed_up_down_linear_x_ := 3 / 10,
                    speed_up_down_angular_z_ := -1 / 5 }
    (mkJoy false true true false true true 1 1 0 1)).2.2 (by simp) (by simp)

/-! ## Entering auto mode -/

/-- C12. Entering auto mode publishes nothing by itself: from manual mode with the
B-latch false, a snapshot with B held and X released sets the mode flag and publishes
no command at all. -/
theorem enter_auto_publishes_nothing (s : TeleopTwistJoyComfy) (joy : Joy)
    (hm : s.auto_teleop_mode_ = false) (hb : s.button_b_state_ = false)
    (hB : joy.button B = true) (hX : joy.button X = false) :
    (joy_callback s joy).1.auto_teleop_mode_ = true ∧ (joy_callback s joy).2 = [] := by
  constructor
  · rw [joy_callback_auto_teleop_mode, joy_callback_mode_auto]
    simp [hm, hb, hB]
  · rw [joy_callback_out, joy_callback_auto_out, joy_callback_mode_out]
    simp [hm, hB, hX]

/-- C12, witness: the initial node, B held with both sticks pushed. -/
theorem enter_auto_publishes_nothing_witness :
    (joy_callback getParam
      (mkJoy false true false false false false 1 1 0 1)).1.auto_teleop_mode_ = true ∧
    (joy_callback getParam (mkJoy false true false false false false 1 1 0 1)).2 = [] :=
  enter_auto_publishes_nothing getParam (mkJoy false true false false false false 1 1 0 1)
    rfl rfl (by simp) (by simp)

/-! ## The steering axis of the auto branch -/

/-- C13, counterexample. In auto mode two snapshots that agree on axes[0] (and on axes[1]
and axes[2]) but differ on axes[3] get different commands: angular 0.5 and -0.5. -/
theorem auto_branch_reads_axis_3 :
    (mkJoy false false false false false false 0 0 0 1).axis 0
      = (mkJoy false false false false false false 0 0 0 (-1)).axis 0 ∧
    (calcTwist { getParam with auto_teleop_mode_ := true }
      (mkJoy false false false false false false 0 0 0 1) true).2.angular_z = 1 / 2 ∧
    (calcTwist { getParam with auto_teleop_mode_ := true }
      (mkJoy false false false false false false 0 0 0 (-1)) true).2.angular_z = -1 / 2 ∧
    (calcTwist { getParam with auto_teleop_mode_ := true }
      (mkJoy false false false false false false 0 0 0 1) true).2
      ≠ (calcTwist { getParam with auto_teleop_mode_ := true }
      (mkJoy false false false false false false 0 0 0 (-1)) true).2 := by
  have a1 : (calcTwist { getParam with auto_teleop_mode_ := true }
      (mkJoy false false false false false false 0 0 0 1) true).2.angular_z = 1 / 2 := by
    rw [calcTwist_angular_z]
    simp only [mkJoy_axis3, effAngular, clamp, getParam]
    norm_num
  have a2 : (calcTwist { getParam with auto_teleop_mode_ := true }
      (mkJoy false false false false false false 0 0 0 (-1)) true).2.angular_z
        = -1 / 2 := by
    rw [calcTwist_angular_z]
    simp only [mkJoy_axis3, effAngular, clamp, getParam]
    norm_num
  refine ⟨rfl, a1, a2, ?_⟩
  intro h
  have h2 := congrArg TwistMsg.angular_z h
  rw [a1, a2] at h2
  norm_num at h2

/-- C13, amended. In auto mode two snapshots that agree on axes[3], the auto-mode
steering axis, get the same command and the same node from `calcTwist`, whatever their
other axes and buttons are. -/
theorem auto_branch_driven_by_axis_3 (s : TeleopTwistJoyComfy) (j1 j2 : Joy)
    (stamped : Bool) (hm : s.auto_teleop_mode_ = true) (h3 : j1.axis 3 = j2.axis 3) :
    calcTwist s j1 stamped = calcTwist s j2 stamped := by
  cases stamped <;> simp [calcTwist, hm, h3]

/-- C13, witness: same axes[3] = 0.5, every other axis and button different. -/
theorem auto_branch_driven_by_axis_3_witness :
    calcTwist { getParam with auto_teleop_mode_ := true }
        (mkJoy false false false false false false 1 1 1 (1 / 2)) true
      = calcTwist { getParam with auto_teleop_mode_ := true }
        (mkJoy true false true true true true (-1) 0 (-1) (1 / 2)) true :=
  auto_branch_driven_by_axis_3 { getParam with auto_teleop_mode_ := true }
    (mkJoy false false false false false false 1 1 1 (1 / 2))
    (mkJoy true false true true true true (-1) 0 (-1) (1 / 2)) true rfl rfl

/-! ## Lock recomputation -/

/-- C15. Lock recomputation is a pure, idempotent function of trims and configuration:
applied twice it gives the state it gives applied once; two states with the same trims,
bases, scales and maxima get the same four locks, whatever their old locks, mode and
latches were; and no field other than the four locks changes. -/
theorem manageSpeedUpDownLocks_pure (s : TeleopTwistJoyComfy) :
    manageSpeedUpDownLocks (manageSpeedUpDownLocks s) = manageSpeedUpDownLocks s ∧
    (∀ s2 : TeleopTwistJoyComfy,
      s2.speed_up_down_linear_x_ = s.speed_up_down_linear_x_ →
      s2.speed_up_down_angular_z_ = s.speed_up_down_angular_z_ →
      s2.linear_x_ = s.linear_x_ → s2.linear_x_max_ = s.linear_x_max_ →
      s2.angular_z_ = s.angular_z_ → s2.angular_z_max_ = s.angular_z_max_ →
      s2.speed_up_down_scale_linear_x_ = s.speed_up_down_scale_linear_x_ →
      s2.speed_up_down_scale_angular_z_ = s.speed_up_down_scale_angular_z_ →
      (manageSpeedUpDownLocks s2).speed_down_linear_x_lock_
        = (manageSpeedUpDownLocks s).speed_down_linear_x_lock_ ∧
      (manageSpeedUpDownLocks s2).speed_up_linear_x_lock_
        = (manageSpeedUpDownLocks s).speed_up_linear_x_lock_ ∧
      (manageSpeedUpDownLocks s2).speed_down_angular_z_lock_
        = (manageSpeedUpDownLocks s).speed_down_angular_z_lock_ ∧
      (manageSpeedUpDownLocks s2).speed_up_angular_z_lock_
        = (manageSpeedUpDownLocks s).speed_up_angular_z_lock_) ∧
    manageSpeedUpDownLocks s =
      { s with
        speed_down_linear_x_lock_ := (manageSpeedUpDownLocks s).speed_down_linear_x_lock_
        speed_up_linear_x_lock_ := (manageSpeedUpDownLocks s).speed_up_linear_x_lock_
        speed_down_angular_z_lock_ := (manageSpeedUpDownLocks s).speed_down_angular_z_lock_
        speed_up_angular_z_lock_ := (manageSpeedUpDownLocks s).speed_up_angular_z_lock_ } := by
  refine ⟨rfl, ?_, rfl⟩
  intro s2 h1 h2 h3 h4 h5 h6 h7 h8
  simp only [manageSpeedUpDownLocks, h1, h2, h3, h4, h5, h6, h7, h8]
  exact ⟨trivial, trivial, trivial, trivial⟩

/-- C15, witness: the initial node with linear trim 1 (effective value 1.5) and the same
node in auto mode with every lock and latch set get the same locks: only the linear
increment-lock is true. -/
theorem manageSpeedUpDownLocks_pure_witness :
    (manageSpeedUpDownLocks
      { getParam with speed_up_down_linear_x_ := 1, auto_teleop_mode_ := true,
                      speed_down_linear_x_lock_ := true, speed_up_linear_x_lock_ := true,
                      speed_down_angular_z_lock_ := true, speed_up_angular_z_lock_ := true,
                      button_b_state_ := true, button_lb_state_ := true,
                      button_rb_state_ := true }).speed_up_linear_x_lock_
      = (manageSpeedUpDownLocks
          { getParam with speed_up_down_linear_x_ := 1 }).speed_up_linear_x_lock_ ∧
    (manageSpeedUpDownLocks
      { getParam with speed_up_down_linear_x_ := 1 }).speed_up_linear_x_lock_ = true := by
  refine ⟨((manageSpeedUpDownLocks_pure { getParam with speed_up_down_linear_x_ := 1 }).2.1
    { getParam with speed_up_down_linear_x_ := 1, auto_teleop_mode_ := true,
                    speed_down_linear_x_lock_ := true, speed_up_linear_x_lock_ := true,
                    speed_down_angular_z_lock_ := true, speed_up_angular_z_lock_ := true,
                    button_b_state_ := true, button_lb_state_ := true,
                    button_rb_state_ := true }
    rfl rfl rfl rfl rfl rfl rfl rfl).2.1, ?_⟩
  simp [manageSpeedUpDownLocks, getParam]

/-! ## Locks and the valid range -/

/-- C14, counterexample. Linear trim 0.5 with the default parameters: the effective
value is 1, the maximum, so every lock is false and the locks are consistent. A rising
edge of right-trim moves the trim to 0.6 and the effective value to 1.1, above the
maximum 1. -/
theorem trim_step_leaves_valid_range :
    locksConsistent { getParam with speed_up_down_linear_x_ := 1 / 2 } ∧
    (changeLinearVelocity { getParam with speed_up_down_linear_x_ := 1 / 2 }
      (mkJoy false false false true false true 0 0 0 0)).speed_up_down_linear_x_ = 3 / 5 ∧
    effLinear (changeLinearVelocity { getParam with speed_up_down_linear_x_ := 1 / 2 }
      (mkJoy false false false true false true 0 0 0 0)) = 11 / 10 ∧
    ¬ effLinear (changeLinearVelocity { getParam with speed_up_down_linear_x_ := 1 / 2 }
      (mkJoy false false false true false true 0 0 0 0))
        ≤ (changeLinearVelocity { getParam with speed_up_down_linear_x_ := 1 / 2 }
            (mkJoy false false false true false true 0 0 0 0)).linear_x_max_ := by
  have h1 : (changeLinearVelocity { getParam with speed_up_down_linear_x_ := 1 / 2 }
      (mkJoy false false false true false true 0 0 0 0)).speed_up_down_linear_x_
        = 3 / 5 := by
    rw [changeLinearVelocity_trim]
    simp [getParam]
    norm_num
  have h2 : effLinear (changeLinearVelocity { getParam with speed_up_down_linear_x_ := 1 / 2 }
      (mkJoy false false false true false true 0 0 0 0)) = 11 / 10 := by
    simp only [effLinear, h1]
    simp [getParam]
    norm_num
  refine ⟨?_, h1, h2, ?_⟩
  · simp [locksConsistent, effLinear, effAngular, getParam]
    norm_num
  · rw [h2]
    simp [getParam]
    norm_num

/-- With a lock that agrees with the comparison it caches, the guard of a trim step is
the rising edge together with the negated comparison. -/
theorem guard_of_consistent_lock (lock edge : Bool) (p : Prop) [Decidable p]
    (hc : lock = true ↔ p) (a b : ℚ) :
    (if (!lock && edge) = true then a else b) = if edge = true ∧ ¬ p then a else b := by
  cases lock <;> cases edge <;> by_cases hp : p <;> simp_all

/-- C14, amended. With the locks consistent with the trims, each trim action applies
exactly the steps whose direction is not already outside [0, max]: the step is
subtracted iff left-trim has a rising edge and the effective value before the action
is ≥ 0, and added iff right-trim has a rising edge and the effective value before the
action is ≤ max, also when the step takes the effective value out of [0, max]. -/
theorem trim_suppressed_only_outside_range (s : TeleopTwistJoyComfy) (joy : Joy)
    (hc : locksConsistent s) :
    (changeLinearVelocity s joy).speed_up_down_linear_x_ =
      (if (joy.button 4 && !s.button_lb_state_) = true ∧ 0 ≤ effLinear s then
        s.speed_up_down_linear_x_ - s.speed_up_down_linear_x_original_
       else s.speed_up_down_linear_x_) +
      (if (joy.button 5 && !s.button_rb_state_) = true ∧ effLinear s ≤ s.linear_x_max_ then
        s.speed_up_down_linear_x_original_
       else 0) ∧
    (changeAngularVelocity s joy).speed_up_down_angular_z_ =
      (if (joy.button 4 && !s.button_lb_state_) = true ∧ 0 ≤ effAngular s then
        s.speed_up_down_angular_z_ - s.speed_up_down_angular_z_original_
       else s.speed_up_down_angular_z_) +
      (if (joy.button 5 && !s.button_rb_state_) = true ∧ effAngular s ≤ s.angular_z_max_
       then s.speed_up_down_angular_z_original_
       else 0) := by
  obtain ⟨c1, c2, c3, c4⟩ := hc
  rw [changeLinearVelocity_trim, changeAngularVelocity_trim,
    guard_of_consistent_lock _ _ _ c1, guard_of_consistent_lock _ _ _ c2,
    guard_of_consistent_lock _ _ _ c3, guard_of_consistent_lock _ _ _ c4]
  simp only [not_lt, gt_iff_lt, and_self]

/-- C14, witness: with linear trim 0.5 (effective value 1, inside the range) a rising
edge of right-trim is applied and the trim becomes 0.6; with linear trim -1 (effective
value -0.5, decrement-lock true) and a rising edge of both trim buttons the decrement is
refused and the increment applied, so the trim becomes -0.9. -/
theorem trim_suppressed_only_outside_range_witness :
    (changeLinearVelocity { getParam with speed_up_down_linear_x_ := 1 / 2 }
      (mkJoy false false false true false true 0 0 0 0)).speed_up_down_linear_x_
        = 3 / 5 ∧
    (changeLinearVelocity
      { getParam with speed_up_down_linear_x_ := -1, speed_down_linear_x_lock_ := true }
      (mkJoy false false false true true true 0 0 0 0)).speed_up_down_linear_x_
        = -9 / 10 := by
  have hc1 : locksConsistent { getParam with speed_up_down_linear_x_ := 1 / 2 } := by
    simp [locksConsistent, effLinear, effAngular, getParam]
    norm_num
  have hc2 : locksConsistent
      { getParam with speed_up_down_linear_x_ := -1, speed_down_linear_x_lock_ := true } := by
    simp [locksConsistent, effLinear, effAngular, getParam]
    norm_num
  constructor
  · rw [(trim_suppressed_only_outside_range
      { getParam with speed_up_down_linear_x_ := 1 / 2 }
      (mkJoy false false false true false true 0 0 0 0) hc1).1]
    norm_num [effLinear, getParam]
  · rw [(trim_suppressed_only_outside_range
      { getParam with speed_up_down_linear_x_ := -1, speed_down_linear_x_lock_ := true }
      (mkJoy false false false true true true 0 0 0 0) hc2).1]
    norm_num [effLinear, getParam]

/-- The effective linear value after the linear trim action. -/
theorem effLinear_changeLinearVelocity (s : TeleopTwistJoyComfy) (joy : Joy) :
    effLinear (changeLinearVelocity s joy) =
      s.linear_x_ + (changeLinearVelocity s joy).speed_up_down_linear_x_
        * s.speed_up_down_scale_linear_x_ := by
  simp [effLinear]

/-- The effective angular value after the angular trim action. -/
theorem effAngular_changeAngularVelocity (s : TeleopTwistJoyComfy) (joy : Joy) :
    effAngular (changeAngularVelocity s joy) =
      s.angular_z_ + (changeAngularVelocity s joy).speed_up_down_angular_z_
        * s.speed_up_down_scale_angular_z_ := by
  simp [effAngular]

/-- C18. One-step overshoot bound, for each axis: with d = trimStep * trimScale ≥ 0,
max ≥ 0 and the axis's two locks consistent with its trim, the trim action keeps the
effective value inside [-d, max + d] when it was inside before, for every snapshot and
latch state. -/
theorem trim_overshoot_at_most_one_step (s : TeleopTwistJoyComfy) (joy : Joy) :
    (0 ≤ s.speed_up_down_linear_x_original_ * s.speed_up_down_scale_linear_x_ →
      0 ≤ s.linear_x_max_ →
      (s.speed_down_linear_x_lock_ = true ↔ effLinear s < 0) →
      (s.speed_up_linear_x_lock_ = true ↔ effLinear s > s.linear_x_max_) →
      -(s.speed_up_down_linear_x_original_ * s.speed_up_down_scale_linear_x_)
        ≤ effLinear s →
      effLinear s ≤ s.linear_x_max_
        + s.speed_up_down_linear_x_original_ * s.speed_up_down_scale_linear_x_ →
      -(s.speed_up_down_linear_x_original_ * s.speed_up_down_scale_linear_x_)
        ≤ effLinear (changeLinearVelocity s joy) ∧
      effLinear (changeLinearVelocity s joy) ≤ s.linear_x_max_
        + s.speed_up_down_linear_x_original_ * s.speed_up_down_scale_linear_x_) ∧
    (0 ≤ s.speed_up_down_angular_z_original_ * s.speed_up_down_scale_angular_z_ →
      0 ≤ s.angular_z_max_ →
      (s.speed_down_angular_z_lock_ = true ↔ effAngular s < 0) →
      (s.speed_up_angular_z_lock_ = true ↔ effAngular s > s.angular_z_max_) →
      -(s.speed_up_down_angular_z_original_ * s.speed_up_down_scale_angular_z_)
        ≤ effAngular s →
      effAngular s ≤ s.angular_z_max_
        + s.speed_up_down_angular_z_original_ * s.speed_up_down_scale_angular_z_ →
      -(s.speed_up_down_angular_z_original_ * s.speed_up_down_scale_angular_z_)
        ≤ effAngular (changeAngularVelocity s joy) ∧
      effAngular (changeAngularVelocity s joy) ≤ s.angular_z_max_
        + s.speed_up_down_angular_z_original_ * s.speed_up_down_scale_angular_z_) := by
  constructor
  · intro hd _ c1 c2 hlo hhi
    rw [effLinear_changeLinearVelocity, changeLinearVelocity_trim]
    have k1 : s.speed_down_linear_x_lock_ = false → 0 ≤ effLinear s := fun hx =>
      not_lt.mp (fun hneg => by rw [c1.mpr hneg] at hx; exact Bool.noConfusion hx)
    have k2 : s.speed_up_linear_x_lock_ = false → effLinear s ≤ s.linear_x_max_ := fun hx =>
      not_lt.mp (fun hgt => by rw [c2.mpr hgt] at hx; exact Bool.noConfusion hx)
    unfold effLinear at hlo hhi k1 k2
    cases h1 : s.speed_down_linear_x_lock_ <;> cases h2 : s.speed_up_linear_x_lock_ <;>
      cases (joy.button 4 && !s.button_lb_state_) <;>
      cases (joy.button 5 && !s.button_rb_state_) <;>
      simp only [Bool.not_false, Bool.not_true, Bool.and_true, Bool.and_false,
        Bool.true_and, Bool.false_and, if_true, if_false, Bool.false_eq_true] <;>
      first
        | (have k1' := k1 h1; have k2' := k2 h2; constructor <;> linarith)
        | (have k1' := k1 h1; constructor <;> linarith)
        | (have k2' := k2 h2; constructor <;> linarith)
        | (constructor <;> linarith)
  · intro hd _ c1 c2 hlo hhi
    rw [effAngular_changeAngularVelocity, changeAngularVelocity_trim]
    have k1 : s.speed_down_angular_z_lock_ = false → 0 ≤ effAngular s := fun hx =>
      not_lt.mp (fun hneg => by rw [c1.mpr hneg] at hx; exact Bool.noConfusion hx)
    have k2 : s.speed_up_angular_z_lock_ = false → effAngular s ≤ s.angular_z_max_ :=
      fun hx =>
      not_lt.mp (fun hgt => by rw [c2.mpr hgt] at hx; exact Bool.noConfusion hx)
    unfold effAngular at hlo hhi k1 k2
    cases h1 : s.speed_down_angular_z_lock_ <;> cases h2 : s.speed_up_angular_z_lock_ <;>
      cases (joy.button 4 && !s.button_lb_state_) <;>
      cases (joy.button 5 && !s.button_rb_state_) <;>
      simp only [Bool.not_false, Bool.not_true, Bool.and_true, Bool.and_false,
        Bool.true_and, Bool.false_and, if_true, if_false, Bool.false_eq_true] <;>
      first
        | (have k1' := k1 h1; have k2' := k2 h2; constructor <;> linarith)
        | (have k1' := k1 h1; constructor <;> linarith)
        | (have k2' := k2 h2; constructor <;> linarith)
        | (constructor <;> linarith)

/-- C18, witness: linear trim 0.5 (effective value 1 = max, d = 0.1) and a rising edge of
right-trim, and the angular trim 0 with a rising edge of left-trim: both effective
values stay inside [-d, max + d]. -/
theorem trim_overshoot_at_most_one_step_witness :
    (-(({ getParam with speed_up_down_linear_x_ := 1 / 2 }
          : TeleopTwistJoyComfy).speed_up_down_linear_x_original_
        * ({ getParam with speed_up_down_linear_x_ := 1 / 2 }
          : TeleopTwistJoyComfy).speed_up_down_scale_linear_x_)
      ≤ effLinear (changeLinearVelocity { getParam with speed_up_down_linear_x_ := 1 / 2 }
          (mkJoy false false false true false true 0 0 0 0)) ∧
     effLinear (changeLinearVelocity { getParam with speed_up_down_linear_x_ := 1 / 2 }
          (mkJoy false false false true false true 0 0 0 0))
      ≤ ({ getParam with speed_up_down_linear_x_ := 1 / 2 }
          : TeleopTwistJoyComfy).linear_x_max_
        + ({ getParam with speed_up_down_linear_x_ := 1 / 2 }
          : TeleopTwistJoyComfy).speed_up_down_linear_x_original_
        * ({ getParam with speed_up_down_linear_x_ := 1 / 2 }
          : TeleopTwistJoyComfy).speed_up_down_scale_linear_x_) ∧
    (-(getParam.speed_up_down_angular_z_original_ * getParam.speed_up_down_scale_angular_z_)
      ≤ effAngular (changeAngularVelocity getParam
          (mkJoy true false false false true false 0 0 0 0)) ∧
     effAngular (changeAngularVelocity getParam
          (mkJoy true false false false true false 0 0 0 0))
      ≤ getParam.angular_z_max_
        + getParam.speed_up_down_angular_z_original_
          * getParam.speed_up_down_scale_angular_z_) :=
  ⟨(trim_overshoot_at_most_one_step { getParam with speed_up_down_linear_x_ := 1 / 2 }
      (mkJoy false false false true false true 0 0 0 0)).1
      (by norm_num [getParam]) (by norm_num [getParam])
      (by norm_num [getParam, effLinear]) (by norm_num [getParam, effLinear])
      (by norm_num [getParam, effLinear]) (by norm_num [getParam, effLinear]),
   (trim_overshoot_at_most_one_step getParam
      (mkJoy true false false false true false 0 0 0 0)).2
      (by norm_num [getParam]) (by norm_num [getParam])
      (by norm_num [getParam, effAngular]) (by norm_num [getParam, effAngular])
      (by norm_num [getParam, effAngular]) (by norm_num [getParam, effAngular])⟩

/-! ## Leaving auto mode with a lock engaged -/

/-- C19. Exit-auto bypasses an engaged linear increment-lock: from auto mode with the
B-latch and the right-trim latch false and the linear increment-lock true, a snapshot
with B, Y and right-trim held and X and left-trim released ends with the linear trim
one step higher, because `autoTeleopEnd` resets the locks before the trim step runs. -/
theorem exit_auto_bypasses_linear_lock (s : TeleopTwistJoyComfy) (joy : Joy)
    (hm : s.auto_teleop_mode_ = true) (hb : s.button_b_state_ = false)
    (hrb : s.button_rb_state_ = false) (_hlock : s.speed_up_linear_x_lock_ = true)
    (hB : joy.button B = true) (hY : joy.button Y = true) (h5 : joy.button 5 = true)
    (hX : joy.button X = false) (h4 : joy.button 4 = false) :
    (joy_callback s joy).1.speed_up_down_linear_x_ =
      s.speed_up_down_linear_x_ + s.speed_up_down_linear_x_original_ := by
  rw [joy_callback_trim_linear, changeLinearVelocity_trim]
  cases hA : joy.button A <;>
    simp [joy_callback_auto, joy_callback_mode, autoTeleopEnd, resetAllSpeedUpDownLocks,
      hm, hb, hrb, hB, hY, h5, hX, h4, hA]

/-- C19, witness: auto mode, linear trim 1 (effective value 1.5, increment-lock true);
B, Y and right-trim held: the trim ends at 1.1. -/
theorem exit_auto_bypasses_linear_lock_witness :
    (joy_callback
      { getParam with auto_teleop_mode_ := true, speed_up_down_linear_x_ := 1,
                      speed_up_linear_x_lock_ := true }
      (mkJoy false true false true false true 0 0 0 0)).1.speed_up_down_linear_x_
        = 1 + 1 / 10 :=
  exit_auto_bypasses_linear_lock
    { getParam with auto_teleop_mode_ := true, speed_up_down_linear_x_ := 1,
                    speed_up_linear_x_lock_ := true }
    (mkJoy false true false true false true 0 0 0 0)
    rfl rfl rfl rfl (by simp) (by simp) (by simp) (by simp) (by simp)

/-! ## Bounds on the published speeds -/

/-- `clamp` lands between its bounds when they are in order. -/
theorem clamp_bounds (v lo hi : ℚ) (h : lo ≤ hi) :
    lo ≤ clamp v lo hi ∧ clamp v lo hi ≤ hi := by
  unfold clamp
  split_ifs with h1 h2
  · exact ⟨le_refl _, h⟩
  · exact ⟨h, le_refl _⟩
  · exact ⟨not_lt.mp h1, not_lt.mp h2⟩

/-- A speed that `calcTwist` clamps by the sign of its axis lies within the maximum. -/
theorem sign_clamp_bounds (e a m : ℚ) (hm : 0 ≤ m) :
    -m ≤ (if a > 0 then clamp (e * a) 0 m
          else if a < 0 then clamp (e * a) (-1 * m) 0 else e * a) ∧
    (if a > 0 then clamp (e * a) 0 m
     else if a < 0 then clamp (e * a) (-1 * m) 0 else e * a) ≤ m := by
  by_cases h1 : a > 0
  · have hb := clamp_bounds (e * a) 0 m hm
    simp only [h1, if_true]
    exact ⟨by linarith [hb.1], hb.2⟩
  · by_cases h2 : a < 0
    · have hb := clamp_bounds (e * a) (-1 * m) 0 (by linarith)
      simp only [h1, h2, if_true, if_false]
      exact ⟨by linarith [hb.1], by linarith [hb.2]⟩
    · simp only [h1, h2, if_false, mul_axis_zero e a h1 h2]
      exact ⟨by linarith, hm⟩

/-- Every message `calcTwist` builds has both speeds within the maxima, in either
mode. -/
theorem calcTwist_bounded (s : TeleopTwistJoyComfy) (joy : Joy) (stamped : Bool)
    (hl : 0 ≤ s.linear_x_max_) (ha : 0 ≤ s.angular_z_max_) :
    -s.linear_x_max_ ≤ (calcTwist s joy stamped).2.linear_x ∧
    (calcTwist s joy stamped).2.linear_x ≤ s.linear_x_max_ ∧
    -s.angular_z_max_ ≤ (calcTwist s joy stamped).2.angular_z ∧
    (calcTwist s joy stamped).2.angular_z ≤ s.angular_z_max_ := by
  rw [calcTwist_linear_x, calcTwist_angular_z]
  cases s.auto_teleop_mode_
  · simp only [Bool.false_eq_true, if_false]
    exact ⟨(sign_clamp_bounds _ _ _ hl).1, (sign_clamp_bounds _ _ _ hl).2,
      (sign_clamp_bounds _ _ _ ha).1, (sign_clamp_bounds _ _ _ ha).2⟩
  · simp only [if_true]
    have hb := clamp_bounds (effLinear s) 0 s.linear_x_max_ hl
    exact ⟨by linarith [hb.1], hb.2,
      (sign_clamp_bounds _ _ _ ha).1, (sign_clamp_bounds _ _ _ ha).2⟩

/-- The mode step leaves the maxima alone. -/
theorem joy_callback_mode_maxima (s : TeleopTwistJoyComfy) (joy : Joy) :
    (joy_callback_mode s joy).1.linear_x_max_ = s.linear_x_max_ ∧
    (joy_callback_mode s joy).1.angular_z_max_ = s.angular_z_max_ := by
  cases hA : joy.button A <;> cases hB : joy.button B <;>
    cases h1 : s.auto_teleop_mode_ <;> cases h2 : s.button_b_state_ <;>
    simp [joy_callback_mode, autoTeleopStart, autoTeleopEnd, resetAllSpeedUpDownLocks,
      hA, hB, h1, h2]

/-- The steps before the X step leave the maxima alone. -/
theorem joy_callback_auto_maxima (s : TeleopTwistJoyComfy) (joy : Joy) :
    (joy_callback_auto s joy).1.linear_x_max_ = s.linear_x_max_ ∧
    (joy_callback_auto s joy).1.angular_z_max_ = s.angular_z_max_ := by
  have hm := joy_callback_mode_maxima s joy
  unfold joy_callback_auto
  simp only [autoTeleop_eq]
  split_ifs <;> simp [hm.1, hm.2]

/-- C16. Output bound: with both maxima non-negative, every command `joy_callback`
publishes, for any trims, locks and mode, has -maxLinear ≤ linear ≤ maxLinear and
-maxAngular ≤ angular ≤ maxAngular. -/
theorem published_speeds_bounded (s : TeleopTwistJoyComfy) (joy : Joy)
    (hl : 0 ≤ s.linear_x_max_) (ha : 0 ≤ s.angular_z_max_) :
    ∀ m ∈ (joy_callback s joy).2,
      -s.linear_x_max_ ≤ m.linear_x ∧ m.linear_x ≤ s.linear_x_max_ ∧
      -s.angular_z_max_ ≤ m.angular_z ∧ m.angular_z ≤ s.angular_z_max_ := by
  have hzero : ∀ m ∈ stopVelocity s,
      -s.linear_x_max_ ≤ m.linear_x ∧ m.linear_x ≤ s.linear_x_max_ ∧
      -s.angular_z_max_ ≤ m.angular_z ∧ m.angular_z ≤ s.angular_z_max_ := by
    intro m hm
    rw [stopVelocity_eq, List.mem_singleton] at hm
    subst hm
    exact ⟨by simpa using hl, hl, by simpa using ha, ha⟩
  have hmode := joy_callback_mode_maxima s joy
  have hauto := joy_callback_auto_maxima s joy
  have h1 := calcTwist_bounded (joy_callback_mode s joy).1 joy s.publish_twist_stamped_
    (by rw [hmode.1]; exact hl) (by rw [hmode.2]; exact ha)
  have h2 := calcTwist_bounded (joy_callback_auto s joy).1 joy s.publish_twist_stamped_
    (by rw [hauto.1]; exact hl) (by rw [hauto.2]; exact ha)
  rw [hmode.1, hmode.2] at h1
  rw [hauto.1, hauto.2] at h2
  intro m hm
  rw [joy_callback_out, joy_callback_auto_out, joy_callback_mode_out] at hm
  simp only [List.mem_append] at hm
  rcases hm with ((hm | hm) | hm) | hm
  · split_ifs at hm
    · exact hzero m hm
    · exact absurd hm (List.not_mem_nil m)
  · split_ifs at hm
    · rw [List.mem_singleton] at hm
      rw [hm]
      exact h1
    · exact absurd hm (List.not_mem_nil m)
  · split_ifs at hm
    · rw [List.mem_singleton] at hm
      rw [hm]
      exact h2
    · exact absurd hm (List.not_mem_nil m)
  · split_ifs at hm
    · exact hzero m hm
    · exact absurd hm (List.not_mem_nil m)

/-- C16, witness: auto mode with trims 100 and -100, X held, both sticks pushed: the two
published commands are linear 1, angular 0, inside the maxima 1 and 1. -/
theorem published_speeds_bounded_witness :
    (joy_callback
      { getParam with auto_teleop_mode_ := true, speed_up_down_linear_x_ := 100,
                      speed_up_down_angular_z_ := -100 }
      (mkJoy false false true false false false 1 1 0 1)).2.length = 2 ∧
    ∀ m ∈ (joy_callback
      { getParam with auto_teleop_mode_ := true, speed_up_down_linear_x_ := 100,
                      speed_up_down_angular_z_ := -100 }
      (mkJoy false false true false false false 1 1 0 1)).2,
      -(1 : ℚ) ≤ m.linear_x ∧ m.linear_x ≤ 1 ∧ -(1 : ℚ) ≤ m.angular_z ∧ m.angular_z ≤ 1 := by
  constructor
  · rw [joy_callback_out, joy_callback_auto_out, joy_callback_mode_out]
    simp [joy_callback_mode_auto]
  · exact published_speeds_bounded
      { getParam with auto_teleop_mode_ := true, speed_up_down_linear_x_ := 100,
                      speed_up_down_angular_z_ := -100 }
      (mkJoy false false true false false false 1 1 0 1)
      (by norm_num [getParam]) (by norm_num [getParam])

/-! ## Trimming while nothing is computed -/

/-- In manual mode with the linear increment-lock and the right-trim latch false, a
snapshot with Y and right-trim held steps the linear trim up, publishes the zero
command and touches nothing else but the latches. -/
theorem joy_callback_isTrimUp (s : TeleopTwistJoyComfy) (joy : Joy)
    (hm : s.auto_teleop_mode_ = false) (hu : s.speed_up_linear_x_lock_ = false)
    (hrb : s.button_rb_state_ = false) (hj : isTrimUp joy) :
    joy_callback s joy =
      ({ s with
          speed_up_down_linear_x_ :=
            s.speed_up_down_linear_x_ + s.speed_up_down_linear_x_original_
          button_b_state_ := false
          button_lb_state_ := false
          button_rb_state_ := true }, stopVelocity s) := by
  obtain ⟨hA, hB, hX, hY, h4, h5⟩ := hj
  simp [joy_callback, joy_callback_auto, joy_callback_mode, changeLinearVelocity,
    manageButtonsState, stopVelocity, hm, hu, hrb, hA, hB, hX, hY, h4, h5]

/-- In manual mode a snapshot with only Y held publishes the zero command and touches
nothing but the latches. -/
theorem joy_callback_isYOnly (s : TeleopTwistJoyComfy) (joy : Joy)
    (hm : s.auto_teleop_mode_ = false) (hj : isYOnly joy) :
    joy_callback s joy =
      ({ s with
          button_b_state_ := false
          button_lb_state_ := false
          button_rb_state_ := false }, stopVelocity s) := by
  obtain ⟨hA, hB, hX, hY, h4, h5⟩ := hj
  simp [joy_callback, joy_callback_auto, joy_callback_mode, changeLinearVelocity,
    manageButtonsState, stopVelocity, hm, hA, hB, hX, hY, h4, h5]

/-- Along alternating (Y and right-trim) / (Y only) snapshots from manual mode, each pair
adds one step to the linear trim, only the latches change besides, and every snapshot
publishes the zero command. -/
theorem run_alternate (ps : List (Joy × Joy))
    (hps : ∀ p ∈ ps, isTrimUp p.1 ∧ isYOnly p.2) :
    ∀ s : TeleopTwistJoyComfy, s.auto_teleop_mode_ = false →
      s.speed_up_linear_x_lock_ = false → s.button_rb_state_ = false →
      (∃ b lb, run s (alternate ps) =
        { s with
          speed_up_down_linear_x_ :=
            s.speed_up_down_linear_x_ + (ps.length : ℚ) * s.speed_up_down_linear_x_original_
          button_b_state_ := b
          button_lb_state_ := lb }) ∧
      runOut s (alternate ps) = List.replicate (2 * ps.length) (stopVelocity s) := by
  induction ps with
  | nil =>
    intro s _ _ _
    refine ⟨⟨s.button_b_state_, s.button_lb_state_, ?_⟩, rfl⟩
    cases s
    simp [alternate, run]
  | cons p ps ih =>
    intro s hm hu hrb
    have hp := hps p (List.mem_cons_self p ps)
    have e1 := joy_callback_isTrimUp s p.1 hm hu hrb hp.1
    have e2 := joy_callback_isYOnly (joy_callback s p.1).1 p.2 (by rw [e1]; exact hm) hp.2
    have hih := ih (fun q hq => hps q (List.mem_cons_of_mem p hq))
      (joy_callback (joy_callback s p.1).1 p.2).1
      (by rw [e2, e1]; exact hm) (by rw [e2, e1]; exact hu) (by rw [e2, e1])
    obtain ⟨⟨b, lb, hrun⟩, hout⟩ := hih
    constructor
    · refine ⟨b, lb, ?_⟩
      simp only [alternate, run_cons]
      rw [hrun, e2, e1]
      simp only [List.length_cons, TeleopTwistJoyComfy.mk.injEq, true_and, and_true, hrb]
      push_cast
      ring
    · simp only [alternate, runOut]
      rw [hout, e2, e1]
      have h2 : 2 * (p :: ps).length = 2 * ps.length + 1 + 1 := by
        simp only [List.length_cons]; ring
      rw [h2, List.replicate_succ, List.replicate_succ]
      simp [stopVelocity]

/-- Two snapshots per pair. -/
theorem alternate_length (ps : List (Joy × Joy)) :
    (alternate ps).length = 2 * ps.length := by
  induction ps with
  | nil => rfl
  | cons p ps ih =>
    simp only [alternate, List.length_cons, ih]
    ring

/-- C17, amended. Reading the arithmetic as exact, locks do not bound the trim while no
command is computed: from manual mode with the four locks and the right-trim latch
false, the 2n snapshots that alternate (Y and right-trim held, every other button
released) and (Y held only) end with the linear trim n steps higher and the four locks
still false, every snapshot publishing only the zero command; so with
trimStepLinear * trimScaleLinear > 0 such snapshots drive the effective linear value
above maxLinear by any amount M. -/
theorem trim_unbounded_while_idle (s : TeleopTwistJoyComfy) (ps : List (Joy × Joy))
    (hm : s.auto_teleop_mode_ = false)
    (hdl : s.speed_down_linear_x_lock_ = false) (hul : s.speed_up_linear_x_lock_ = false)
    (hda : s.speed_down_angular_z_lock_ = false) (hua : s.speed_up_angular_z_lock_ = false)
    (hrb : s.button_rb_state_ = false)
    (hps : ∀ p ∈ ps, isTrimUp p.1 ∧ isYOnly p.2) :
    (alternate ps).length = 2 * ps.length ∧
    (run s (alternate ps)).speed_up_down_linear_x_ =
      s.speed_up_down_linear_x_ + (ps.length : ℚ) * s.speed_up_down_linear_x_original_ ∧
    (run s (alternate ps)).speed_down_linear_x_lock_ = false ∧
    (run s (alternate ps)).speed_up_linear_x_lock_ = false ∧
    (run s (alternate ps)).speed_down_angular_z_lock_ = false ∧
    (run s (alternate ps)).speed_up_angular_z_lock_ = false ∧
    runOut s (alternate ps) =
      List.replicate (2 * ps.length)
        [{ frame_id := if s.publish_twist_stamped_ then some "" else none,
           linear_x := 0, angular_z := 0 }] ∧
    (0 < s.speed_up_down_linear_x_original_ * s.speed_up_down_scale_linear_x_ →
      ∀ M : ℚ, ∃ qs : List (Joy × Joy),
        (∀ q ∈ qs, isTrimUp q.1 ∧ isYOnly q.2) ∧
        effLinear (run s (alternate qs)) > s.linear_x_max_ + M) := by
  obtain ⟨⟨b, lb, hrun⟩, hout⟩ := run_alternate ps hps s hm hul hrb
  refine ⟨?_, ?_, ?_, ?_, ?_, ?_, ?_, ?_⟩
  · exact alternate_length ps
  · rw [hrun]
  · rw [hrun]; exact hdl
  · rw [hrun]; exact hul
  · rw [hrun]; exact hda
  · rw [hrun]; exact hua
  · rw [hout, stopVelocity_eq]
  · intro hd M
    obtain ⟨n, hn⟩ := exists_nat_gt ((s.linear_x_max_ + M - effLinear s) /
      (s.speed_up_down_linear_x_original_ * s.speed_up_down_scale_linear_x_))
    have hq : ∀ q ∈ List.replicate n
        (mkJoy false false false true false true 0 0 0 0,
         mkJoy false false false true false false 0 0 0 0),
        isTrimUp q.1 ∧ isYOnly q.2 := by
      intro q hq
      rw [List.eq_of_mem_replicate hq]
      simp [isTrimUp, isYOnly]
    refine ⟨_, hq, ?_⟩
    obtain ⟨⟨b2, lb2, hrun2⟩, _⟩ := run_alternate _ hq s hm hul hrb
    rw [hrun2]
    have hn2 := (div_lt_iff₀ hd).mp hn
    simp only [effLinear, List.length_replicate] at hn2 ⊢
    linarith

/-- C17, witness: three pairs from the initial node move the linear trim from 0 to 0.3,
each of the six snapshots publishing the zero command. -/
theorem trim_unbounded_while_idle_witness :
    (run getParam (alternate (List.replicate 3
      (mkJoy false false false true false true 1 1 0 0,
       mkJoy false false false true false false 0 0 0 0)))).speed_up_down_linear_x_
      = 0 + ((3 : ℕ) : ℚ) * (1 / 10) ∧
    runOut getParam (alternate (List.replicate 3
      (mkJoy false false false true false true 1 1 0 0,
       mkJoy false false false true false false 0 0 0 0)))
      = List.replicate (2 * 3) [{ frame_id := some "", linear_x := 0, angular_z := 0 }] := by
  have h := trim_unbounded_while_idle getParam (List.replicate 3
      (mkJoy false false false true false true 1 1 0 0,
       mkJoy false false false true false false 0 0 0 0))
    rfl rfl rfl rfl rfl rfl
    (by
      intro q hq
      rw [List.eq_of_mem_replicate hq]
      simp [isTrimUp, isYOnly])
  exact ⟨h.2.1, h.2.2.2.2.2.2.1⟩

/-! ## Trimming with `double` arithmetic -/

/-- With the identity as rounding the rounded callback is `joy_callback`. -/
theorem joy_callback_fp_exact (s : TeleopTwistJoyComfy) (joy : Joy) :
    joy_callback_fp (fun x => x) s joy = joy_callback s joy := by
  simp [joy_callback_fp, joy_callback, joy_callback_auto_fp, joy_callback_auto,
    joy_callback_mode_fp, joy_callback_mode, changeLinearVelocity_fp, changeLinearVelocity,
    changeAngularVelocity_fp, changeAngularVelocity, manualTeleop_fp, manualTeleop,
    autoTeleop_fp, autoTeleop, calcTwist_fp, calcTwist, manageSpeedUpDownLocks_fp,
    manageSpeedUpDownLocks]

/-- The value of `binary64` once the binade and the floor of the scaled value are
known. -/
theorem binary64_eq (x : ℚ) (e f : ℤ) (hx : 0 < x)
    (h1 : (2 : ℚ) ^ e ≤ x) (h2 : x < (2 : ℚ) ^ (e + 1))
    (h3 : (f : ℚ) ≤ x / 2 ^ (e - 52)) (h4 : x / 2 ^ (e - 52) < f + 1) :
    binary64 x =
      ((if x / 2 ^ (e - 52) - f < 1 / 2 then f
        else if 1 / 2 < x / 2 ^ (e - 52) - f then f + 1
        else if f % 2 = 0 then f else f + 1 : ℤ) : ℚ) * 2 ^ (e - 52) := by
  have hlog : Int.log 2 |x| = e := by
    rw [abs_of_pos hx]
    have a1 : e ≤ Int.log 2 x :=
      (Int.zpow_le_iff_le_log (by norm_num) hx).mp (by exact_mod_cast h1)
    have a2 : Int.log 2 x < e + 1 :=
      (Int.lt_zpow_iff_log_lt (by norm_num) hx).mp (by exact_mod_cast h2)
    omega
  have hfloor : ⌊x / 2 ^ (e - 52)⌋ = f := Int.floor_eq_iff.mpr ⟨h3, h4⟩
  unfold binary64 roundTiesToEven
  rw [if_neg (ne_of_gt hx), hlog, hfloor]

/-- The `double` nearest to the literal 0.1. -/
theorem binary64_tenth : binary64 (1 / 10) = 3602879701896397 / 36028797018963968 := by
  rw [binary64_eq (1 / 10) (-4) 7205759403792793 (by norm_num) (by norm_num) (by norm_num)
    (by norm_num) (by norm_num)]
  norm_num

theorem binary64_press_1 :
    binary64 (0 + 3602879701896397 / 36028797018963968) = 3602879701896397 / 36028797018963968 := by
  rw [binary64_eq _ (-4) 7205759403792794 (by norm_num) (by norm_num) (by norm_num)
    (by norm_num) (by norm_num)]
  norm_num

theorem binary64_press_2 :
    binary64 (3602879701896397 / 36028797018963968 + 3602879701896397 / 36028797018963968) = 3602879701896397 / 18014398509481984 := by
  rw [binary64_eq _ (-3) 7205759403792794 (by norm_num) (by norm_num) (by norm_num)
    (by norm_num) (by norm_num)]
  norm_num

theorem binary64_press_3 :
    binary64 (3602879701896397 / 18014398509481984 + 3602879701896397 / 36028797018963968) = 1351079888211149 / 4503599627370496 := by
  rw [binary64_eq _ (-2) 5404319552844595 (by norm_num) (by norm_num) (by norm_num)
    (by norm_num) (by norm_num)]
  norm_num

theorem binary64_press_4 :
    binary64 (1351079888211149 / 4503599627370496 + 3602879701896397 / 36028797018963968) = 3602879701896397 / 9007199254740992 := by
  rw [binary64_eq _ (-2) 7205759403792794 (by norm_num) (by norm_num) (by norm_num)
    (by norm_num) (by norm_num)]
  norm_num

theorem binary64_press_5 :
    binary64 (3602879701896397 / 9007199254740992 + 3602879701896397 / 36028797018963968) = 1 / 2 := by
  rw [binary64_eq _ (-1) 4503599627370496 (by norm_num) (by norm_num) (by norm_num)
    (by norm_num) (by norm_num)]
  norm_num

theorem binary64_press_6 :
    binary64 (1 / 2 + 3602879701896397 / 36028797018963968) = 5404319552844595 / 9007199254740992 := by
  rw [binary64_eq _ (-1) 5404319552844595 (by norm_num) (by norm_num) (by norm_num)
    (by norm_num) (by norm_num)]
  norm_num

theorem binary64_press_7 :
    binary64 (5404319552844595 / 9007199254740992 + 3602879701896397 / 36028797018963968) = 3152519739159347 / 4503599627370496 := by
  rw [binary64_eq _ (-1) 6305039478318694 (by norm_num) (by norm_num) (by norm_num)
    (by norm_num) (by norm_num)]
  norm_num

theorem binary64_press_8 :
    binary64 (3152519739159347 / 4503599627370496 + 3602879701896397 / 36028797018963968) = 7205759403792793 / 9007199254740992 := by
  rw [binary64_eq _ (-1) 7205759403792793 (by norm_num) (by norm_num) (by norm_num)
    (by norm_num) (by norm_num)]
  norm_num

theorem binary64_press_9 :
    binary64 (7205759403792793 / 9007199254740992 + 3602879701896397 / 36028797018963968) = 2026619832316723 / 2251799813685248 := by
  rw [binary64_eq _ (-1) 8106479329266892 (by norm_num) (by norm_num) (by norm_num)
    (by norm_num) (by norm_num)]
  norm_num

theorem binary64_press_10 :
    binary64 (2026619832316723 / 2251799813685248 + 3602879701896397 / 36028797018963968) = 9007199254740991 / 9007199254740992 := by
  rw [binary64_eq _ (-1) 9007199254740991 (by norm_num) (by norm_num) (by norm_num)
    (by norm_num) (by norm_num)]
  norm_num

/-- The `double` nearest to ten times the `double` 0.1 is 1. -/
theorem binary64_ten_tenths : binary64 (0 + 10 * (3602879701896397 / 36028797018963968)) = 1 := by
  rw [binary64_eq _ (0) 4503599627370496 (by norm_num) (by norm_num) (by norm_num)
    (by norm_num) (by norm_num)]
  norm_num

/-- With rounded arithmetic, in manual mode with the linear increment-lock and the
right-trim latch false, a snapshot with Y and right-trim held replaces the linear trim
by the rounded sum of trim and step, publishes the zero command and touches nothing else
but the latches. -/
theorem joy_callback_fp_isTrimUp (rnd : ℚ → ℚ) (s : TeleopTwistJoyComfy) (joy : Joy)
    (hm : s.auto_teleop_mode_ = false) (hu : s.speed_up_linear_x_lock_ = false)
    (hrb : s.button_rb_state_ = false) (hj : isTrimUp joy) :
    joy_callback_fp rnd s joy =
      ({ s with
          speed_up_down_linear_x_ :=
            rnd (s.speed_up_down_linear_x_ + s.speed_up_down_linear_x_original_)
          button_b_state_ := false
          button_lb_state_ := false
          button_rb_state_ := true }, stopVelocity s) := by
  obtain ⟨hA, hB, hX, hY, h4, h5⟩ := hj
  simp [joy_callback_fp, joy_callback_auto_fp, joy_callback_mode_fp, changeLinearVelocity_fp,
    manageButtonsState, stopVelocity, hm, hu, hrb, hA, hB, hX, hY, h4, h5]

/-- With rounded arithmetic, in manual mode a snapshot with only Y held publishes the
zero command and touches nothing but the latches. -/
theorem joy_callback_fp_isYOnly (rnd : ℚ → ℚ) (s : TeleopTwistJoyComfy) (joy : Joy)
    (hm : s.auto_teleop_mode_ = false) (hj : isYOnly joy) :
    joy_callback_fp rnd s joy =
      ({ s with
          button_b_state_ := false
          button_lb_state_ := false
          button_rb_state_ := false }, stopVelocity s) := by
  obtain ⟨hA, hB, hX, hY, h4, h5⟩ := hj
  simp [joy_callback_fp, joy_callback_auto_fp, joy_callback_mode_fp, changeLinearVelocity_fp,
    manageButtonsState, stopVelocity, hm, hA, hB, hX, hY, h4, h5]

theorem run_fp_cons (rnd : ℚ → ℚ) (s : TeleopTwistJoyComfy) (joy : Joy) (joys : List Joy) :
    run_fp rnd s (joy :: joys) = run_fp rnd (joy_callback_fp rnd s joy).1 joys := rfl

/-- With rounded arithmetic, each (Y and right-trim) / (Y only) pair from manual mode
replaces the linear trim by the rounded sum of trim and step; only the latches change
besides. -/
theorem run_fp_alternate (rnd : ℚ → ℚ) (ps : List (Joy × Joy))
    (hps : ∀ p ∈ ps, isTrimUp p.1 ∧ isYOnly p.2) :
    ∀ s : TeleopTwistJoyComfy, s.auto_teleop_mode_ = false →
      s.speed_up_linear_x_lock_ = false → s.button_rb_state_ = false →
      ∃ b lb, run_fp rnd s (alternate ps) =
        { s with
          speed_up_down_linear_x_ :=
            (fun t => rnd (t + s.speed_up_down_linear_x_original_))^[ps.length]
              s.speed_up_down_linear_x_
          button_b_state_ := b
          button_lb_state_ := lb } := by
  induction ps with
  | nil =>
    intro s _ _ _
    exact ⟨s.button_b_state_, s.button_lb_state_, rfl⟩
  | cons p ps ih =>
    intro s hm hu hrb
    have hp := hps p (List.mem_cons_self p ps)
    have e1 := joy_callback_fp_isTrimUp rnd s p.1 hm hu hrb hp.1
    have e2 := joy_callback_fp_isYOnly rnd (joy_callback_fp rnd s p.1).1 p.2
      (by rw [e1]; exact hm) hp.2
    obtain ⟨b, lb, hrun⟩ := ih (fun q hq => hps q (List.mem_cons_of_mem p hq))
      (joy_callback_fp rnd (joy_callback_fp rnd s p.1).1 p.2).1
      (by rw [e2, e1]; exact hm) (by rw [e2, e1]; exact hu) (by rw [e2, e1])
    refine ⟨b, lb, ?_⟩
    simp only [alternate, run_fp_cons]
    rw [hrun, e2, e1]
    simp only [List.length_cons, Function.iterate_succ_apply, TeleopTwistJoyComfy.mk.injEq,
      true_and, and_true, hrb]

/-- C17, counterexample. With `double` arithmetic and the default parameters (the step is
the `double` nearest to 0.1), ten (Y and right-trim) / (Y only) pairs from the initial
node, which is in manual mode with every lock and latch false, end with the linear trim
at 0.9999999999999999 = 9007199254740991 / 9007199254740992: this is neither the exact value
0 + 10 * step nor 1, the `double` nearest to it. -/
theorem binary64_trim_sum_inexact :
    (run_fp binary64 { getParam with speed_up_down_linear_x_original_ := binary64 (1 / 10) }
      (alternate (List.replicate 10
        (mkJoy false false false true false true 0 0 0 0,
         mkJoy false false false true false false 0 0 0 0)))).speed_up_down_linear_x_
      = 9007199254740991 / 9007199254740992 ∧
    ({ getParam with speed_up_down_linear_x_original_ := binary64 (1 / 10) }
      : TeleopTwistJoyComfy).speed_up_down_linear_x_
      + ((10 : ℕ) : ℚ)
        * ({ getParam with speed_up_down_linear_x_original_ := binary64 (1 / 10) }
          : TeleopTwistJoyComfy).speed_up_down_linear_x_original_
      = 18014398509481985 / 18014398509481984 ∧
    binary64 (({ getParam with speed_up_down_linear_x_original_ := binary64 (1 / 10) }
      : TeleopTwistJoyComfy).speed_up_down_linear_x_
      + ((10 : ℕ) : ℚ)
        * ({ getParam with speed_up_down_linear_x_original_ := binary64 (1 / 10) }
          : TeleopTwistJoyComfy).speed_up_down_linear_x_original_) = 1 := by
  have hq : ∀ q ∈ List.replicate 10
      (mkJoy false false false true false true 0 0 0 0,
       mkJoy false false false true false false 0 0 0 0),
      isTrimUp q.1 ∧ isYOnly q.2 := by
    intro q hq
    rw [List.eq_of_mem_replicate hq]
    simp [isTrimUp, isYOnly]
  obtain ⟨b, lb, hrun⟩ := run_fp_alternate binary64 _ hq
    { getParam with speed_up_down_linear_x_original_ := binary64 (1 / 10) } rfl rfl rfl
  refine ⟨?_, ?_, ?_⟩
  · rw [hrun]
    simp only [List.length_replicate, getParam, binary64_tenth]
    rw [show (10 : ℕ) = 0 + 1 + 1 + 1 + 1 + 1 + 1 + 1 + 1 + 1 + 1 from rfl]
    simp only [Function.iterate_succ_apply', Function.iterate_zero_apply]
    rw [binary64_press_1, binary64_press_2, binary64_press_3, binary64_press_4, binary64_press_5, binary64_press_6, binary64_press_7, binary64_press_8, binary64_press_9, binary64_press_10]
  · simp only [getParam, binary64_tenth]
    norm_num
  · simp only [getParam, binary64_tenth]
    exact_mod_cast binary64_ten_tenths

end teleop_twist_joy_comfy
